import Mathlib

/-!
# Argon ONE UP battery drivers: a shallow embedding

Two drivers of the repository are embedded here.

* `dummy_battery.c`: a simulated battery (`struct dummy_batt`) with validated
  property writes (`dummy_set_property`), reads (`dummy_get_property`) and a
  one-second simulation tick (`dummy_sim_work`).
* `oneUpPower.c`: the I2C poller (`set_power_states`, `check_ac_power`,
  `check_battery_state`, `oneup_power_exit`) working on the module globals
  `battery` and `ac_online`.

C `int` values are modelled as `Int`.  The only arithmetic in the embedded
functions that can leave the 32-bit range is the arithmetic of the tick; it is
wrapped with `wrap32` (the kernel is built with `-fno-strict-overflow`, so
signed arithmetic wraps).  The device mutex is not modelled: every function
below is one critical section, and calls to `power_supply_changed` are recorded
in the result of the call.
-/

namespace ArgonOneUp

/-! ## Kernel constants used by the drivers -/

/-- Kernel errno `EINVAL` (errno-base.h of the kernel, not part of the repository). -/
def EINVAL : Int := 22

/-- Kernel errno `ERANGE` (errno-base.h of the kernel, not part of the repository). -/
def ERANGE : Int := 34

/-- Kernel enum value (linux/power_supply.h): status unknown. -/
def POWER_SUPPLY_STATUS_UNKNOWN : Int := 0

/-- Kernel enum value (linux/power_supply.h): status charging. -/
def POWER_SUPPLY_STATUS_CHARGING : Int := 1

/-- Kernel enum value (linux/power_supply.h): status discharging. -/
def POWER_SUPPLY_STATUS_DISCHARGING : Int := 2

/-- Kernel enum value (linux/power_supply.h): status not charging. -/
def POWER_SUPPLY_STATUS_NOT_CHARGING : Int := 3

/-- Kernel enum value (linux/power_supply.h): status full. -/
def POWER_SUPPLY_STATUS_FULL : Int := 4

/-- Kernel enum value (linux/power_supply.h): capacity level critical. -/
def POWER_SUPPLY_CAPACITY_LEVEL_CRITICAL : Int := 1

/-- Kernel enum value (linux/power_supply.h): capacity level low. -/
def POWER_SUPPLY_CAPACITY_LEVEL_LOW : Int := 2

/-- Kernel enum value (linux/power_supply.h): capacity level normal. -/
def POWER_SUPPLY_CAPACITY_LEVEL_NORMAL : Int := 3

/-- Kernel enum value (linux/power_supply.h): capacity level high. -/
def POWER_SUPPLY_CAPACITY_LEVEL_HIGH : Int := 4

/-- Kernel enum value (linux/power_supply.h): capacity level full. -/
def POWER_SUPPLY_CAPACITY_LEVEL_FULL : Int := 5

/-- Kernel enum value (linux/power_supply.h): health good. -/
def POWER_SUPPLY_HEALTH_GOOD : Int := 1

/-- Kernel enum value (linux/power_supply.h): lithium-ion technology. -/
def POWER_SUPPLY_TECHNOLOGY_LION : Int := 2

/-- Kernel enum value (linux/power_supply.h): system scope. -/
def POWER_SUPPLY_SCOPE_SYSTEM : Int := 1

/-- Kernel enum value (linux/power_supply.h): fast charge type. -/
def POWER_SUPPLY_CHARGE_TYPE_FAST : Int := 3

/-- The kernel's `enum power_supply_property`: the enumerators the drivers name,
and `OTHER n` for each of the remaining enumerators of the kernel header. -/
inductive power_supply_property where
  | POWER_SUPPLY_PROP_STATUS
  | POWER_SUPPLY_PROP_CHARGE_TYPE
  | POWER_SUPPLY_PROP_HEALTH
  | POWER_SUPPLY_PROP_PRESENT
  | POWER_SUPPLY_PROP_ONLINE
  | POWER_SUPPLY_PROP_TECHNOLOGY
  | POWER_SUPPLY_PROP_VOLTAGE_NOW
  | POWER_SUPPLY_PROP_CURRENT_NOW
  | POWER_SUPPLY_PROP_CHARGE_FULL_DESIGN
  | POWER_SUPPLY_PROP_CHARGE_EMPTY
  | POWER_SUPPLY_PROP_CHARGE_FULL
  | POWER_SUPPLY_PROP_CHARGE_NOW
  | POWER_SUPPLY_PROP_CAPACITY
  | POWER_SUPPLY_PROP_CAPACITY_LEVEL
  | POWER_SUPPLY_PROP_TIME_TO_EMPTY_AVG
  | POWER_SUPPLY_PROP_TIME_TO_FULL_NOW
  | POWER_SUPPLY_PROP_TEMP
  | POWER_SUPPLY_PROP_SCOPE
  | POWER_SUPPLY_PROP_MODEL_NAME
  | POWER_SUPPLY_PROP_MANUFACTURER
  | POWER_SUPPLY_PROP_SERIAL_NUMBER
  | OTHER (n : Nat)
deriving DecidableEq, Repr

open power_supply_property

/-- Two's-complement wrap of an integer into the range of a 32-bit C `int`. -/
def wrap32 (x : Int) : Int := (x + 2147483648) % 4294967296 - 2147483648

/-- The kernel macro `clamp(val, lo, hi)` (linux/minmax.h): `min(max(val, lo), hi)`. -/
def clamp (val lo hi : Int) : Int := min (max val lo) hi

/-! ## dummy_battery.c -/

/-- `DFLT_CAPACITY` of dummy_battery.c. -/
def DFLT_CAPACITY : Int := 75

/-- `DFLT_VOLTAGE_UV` of dummy_battery.c. -/
def DFLT_VOLTAGE_UV : Int := 4000000

/-- `DFLT_CURRENT_UA` of dummy_battery.c. -/
def DFLT_CURRENT_UA : Int := 50000

/-- `DFLT_TEMP_DECIC` of dummy_battery.c. -/
def DFLT_TEMP_DECIC : Int := 300

/-- The simulated state of `struct dummy_batt` (the `psy`, `desc`, `sim_work`
and `lock` members are kernel plumbing and carry no simulated state). -/
structure dummy_batt where
  capacity : Int
  voltage_uV : Int
  current_uA : Int
  temp_deciC : Int
  online_ac : Bool
  status : Int
deriving DecidableEq, Repr

/-- The module parameters of dummy_battery.c. -/
structure ModuleParams where
  start_capacity : Int
  discharge_rate : Int
  charge_rate : Int
  start_charging : Bool
  start_online_ac : Bool
deriving DecidableEq, Repr

/-- The defaults of the module parameters: 75 percent, rates 1 and 2, both flags clear. -/
def default_params : ModuleParams :=
  { start_capacity := DFLT_CAPACITY, discharge_rate := 1, charge_rate := 2,
    start_charging := false, start_online_ac := false }

/-- Result of `dummy_get_property`: the return code and the value stored in
`val->intval` (`none` when nothing is stored). -/
structure GetResult where
  ret : Int
  intval : Option Int
deriving DecidableEq, Repr

/-- Embedding of `dummy_get_property`. -/
def dummy_get_property (db : dummy_batt) (psp : power_supply_property) : GetResult :=
  match psp with
  | POWER_SUPPLY_PROP_STATUS => ⟨0, some db.status⟩
  | POWER_SUPPLY_PROP_PRESENT => ⟨0, some 1⟩
  | POWER_SUPPLY_PROP_ONLINE => ⟨0, some (if db.online_ac then 1 else 0)⟩
  | POWER_SUPPLY_PROP_CAPACITY => ⟨0, some db.capacity⟩
  | POWER_SUPPLY_PROP_VOLTAGE_NOW => ⟨0, some db.voltage_uV⟩
  | POWER_SUPPLY_PROP_CURRENT_NOW => ⟨0, some db.current_uA⟩
  | POWER_SUPPLY_PROP_TEMP => ⟨0, some db.temp_deciC⟩
  | POWER_SUPPLY_PROP_HEALTH => ⟨0, some POWER_SUPPLY_HEALTH_GOOD⟩
  | POWER_SUPPLY_PROP_TECHNOLOGY => ⟨0, some POWER_SUPPLY_TECHNOLOGY_LION⟩
  | POWER_SUPPLY_PROP_SCOPE => ⟨0, some POWER_SUPPLY_SCOPE_SYSTEM⟩
  | _ => ⟨-EINVAL, none⟩

/-- Result of `dummy_set_property`: the return code, the device state after the
call and the number of `power_supply_changed` calls made. -/
structure SetResult where
  ret : Int
  db : dummy_batt
  notified : Nat
deriving DecidableEq, Repr

/-- Embedding of `dummy_set_property`; `intval` is `val->intval`. -/
def dummy_set_property (db : dummy_batt) (psp : power_supply_property) (intval : Int) :
    SetResult :=
  match psp with
  | POWER_SUPPLY_PROP_ONLINE =>
    let db1 := { db with online_ac := if intval ≠ 0 then true else false }
    let db2 := { db1 with status := if db1.online_ac then POWER_SUPPLY_STATUS_CHARGING
                                    else POWER_SUPPLY_STATUS_DISCHARGING }
    ⟨0, db2, 1⟩
  | POWER_SUPPLY_PROP_STATUS =>
    if intval = POWER_SUPPLY_STATUS_CHARGING ∨ intval = POWER_SUPPLY_STATUS_DISCHARGING ∨
        intval = POWER_SUPPLY_STATUS_NOT_CHARGING ∨ intval = POWER_SUPPLY_STATUS_FULL then
      ⟨0, { db with status := intval }, 1⟩
    else
      ⟨-EINVAL, db, 0⟩
  | POWER_SUPPLY_PROP_CAPACITY =>
    if intval < 0 ∨ intval > 100 then
      ⟨-ERANGE, db, 0⟩
    else
      ⟨0, { db with capacity := intval }, 1⟩
  | _ => ⟨-EINVAL, db, 0⟩

/-- Embedding of `dummy_property_is_writeable`. -/
def dummy_property_is_writeable (psp : power_supply_property) : Int :=
  match psp with
  | POWER_SUPPLY_PROP_ONLINE => 1
  | POWER_SUPPLY_PROP_STATUS => 1
  | POWER_SUPPLY_PROP_CAPACITY => 1
  | _ => 0

/-- Result of one `dummy_sim_work` tick: the device state after the tick and
the number of `power_supply_changed` calls made. -/
structure SimResult where
  db : dummy_batt
  notified : Nat
deriving DecidableEq, Repr

/-- The first part of `dummy_sim_work`: the capacity step, giving the state and
the local flag `changed`. -/
def sim_step (charge_rate discharge_rate : Int) (db : dummy_batt) : dummy_batt × Bool :=
  if db.status = POWER_SUPPLY_STATUS_CHARGING ∧ db.capacity < 100 then
    let db1 := { db with capacity := wrap32 (db.capacity + charge_rate) }
    if db1.capacity ≥ 100 then
      ({ db1 with capacity := 100, status := POWER_SUPPLY_STATUS_FULL }, true)
    else
      (db1, true)
  else if db.status = POWER_SUPPLY_STATUS_DISCHARGING ∧ db.capacity > 0 then
    let db1 := { db with capacity := wrap32 (db.capacity - discharge_rate) }
    if db1.capacity ≤ 0 then
      ({ db1 with capacity := 0, status := POWER_SUPPLY_STATUS_NOT_CHARGING }, true)
    else
      (db1, true)
  else
    (db, false)

/-- The second part of `dummy_sim_work`: the linear voltage model and the
current selected by the status. -/
def sim_electrical (db : dummy_batt) : dummy_batt :=
  let db1 := { db with voltage_uV := wrap32 (3500000 + wrap32 (db.capacity * 7000)) }
  if db1.status = POWER_SUPPLY_STATUS_CHARGING then
    { db1 with current_uA := 80000 }
  else if db1.status = POWER_SUPPLY_STATUS_DISCHARGING then
    { db1 with current_uA := -50000 }
  else
    { db1 with current_uA := 0 }

/-- Embedding of `dummy_sim_work` (one tick) for the configured rates. -/
def dummy_sim_work (charge_rate discharge_rate : Int) (db : dummy_batt) : SimResult :=
  let r := sim_step charge_rate discharge_rate db
  ⟨sim_electrical r.1, if r.2 then 1 else 0⟩

/-- Embedding of the initial state built by `dummy_probe` (the allocation and
registration failure paths create no device). -/
def dummy_probe (p : ModuleParams) : dummy_batt :=
  { capacity := clamp p.start_capacity 0 100
    voltage_uV := DFLT_VOLTAGE_UV
    current_uA := DFLT_CURRENT_UA
    temp_deciC := DFLT_TEMP_DECIC
    online_ac := p.start_online_ac
    status := if p.start_charging then POWER_SUPPLY_STATUS_CHARGING
              else POWER_SUPPLY_STATUS_DISCHARGING }

/-- The operations that act on a dummy battery after `dummy_probe`: a property
write from sysfs or one simulation tick. -/
inductive DummyOp where
  | set (psp : power_supply_property) (intval : Int)
  | tick
deriving DecidableEq, Repr

/-- The device state after one operation, for the configured rates. -/
def dummy_apply (charge_rate discharge_rate : Int) (db : dummy_batt) : DummyOp → dummy_batt
  | DummyOp.set psp intval => (dummy_set_property db psp intval).db
  | DummyOp.tick => (dummy_sim_work charge_rate discharge_rate db).db

/-- The device state after `dummy_probe` followed by a sequence of operations,
the rates being the ones of the module parameters. -/
def dummy_run (p : ModuleParams) (ops : List DummyOp) : dummy_batt :=
  ops.foldl (dummy_apply p.charge_rate p.discharge_rate) (dummy_probe p)

/-- The status the poller rule derives from a capacity and an AC flag: Full
above 95 on AC, Charging otherwise on AC, Discharging off AC. -/
def derived_status (capacity : Int) (ac : Bool) : Int :=
  if ac then
    if capacity > 95 then POWER_SUPPLY_STATUS_FULL else POWER_SUPPLY_STATUS_CHARGING
  else POWER_SUPPLY_STATUS_DISCHARGING

/-- The capacity level of a capacity with the thresholds 95, 85, 40 and 30. -/
def derived_level (capacity : Int) : Int :=
  if capacity > 95 then POWER_SUPPLY_CAPACITY_LEVEL_FULL
  else if capacity > 85 then POWER_SUPPLY_CAPACITY_LEVEL_HIGH
  else if capacity > 40 then POWER_SUPPLY_CAPACITY_LEVEL_NORMAL
  else if capacity > 30 then POWER_SUPPLY_CAPACITY_LEVEL_LOW
  else POWER_SUPPLY_CAPACITY_LEVEL_CRITICAL

/-- The agreement of the sign of the current with the status: non-negative
while Charging, non-positive while Discharging, zero when Full or NotCharging. -/
def current_agrees (db : dummy_batt) : Prop :=
  (db.status = POWER_SUPPLY_STATUS_CHARGING → db.current_uA ≥ 0) ∧
  (db.status = POWER_SUPPLY_STATUS_DISCHARGING → db.current_uA ≤ 0) ∧
  (db.status = POWER_SUPPLY_STATUS_FULL ∨ db.status = POWER_SUPPLY_STATUS_NOT_CHARGING →
    db.current_uA = 0)

instance (db : dummy_batt) : Decidable (current_agrees db) := by
  unfold current_agrees; infer_instance

/-! ## oneUpPower.c -/

/-- `ONEUP_BATTERY` of `enum test_power_id`. -/
def ONEUP_BATTERY : Nat := 0

/-- `ONEUP_AC` of `enum test_power_id`. -/
def ONEUP_AC : Nat := 1

/-- `ONEUP_POWER_NUM` of `enum test_power_id`, the size of `power_supplies`. -/
def ONEUP_POWER_NUM : Nat := 2

/-- `TOTAL_LIFE_SECONDS` of oneUpPower.c. -/
def TOTAL_LIFE_SECONDS : Int := 3 * 60 * 60

/-- `TOTAL_CHARGE` of oneUpPower.c. -/
def TOTAL_CHARGE : Int := 4800 * 1000

/-- `TOTAL_CHARGE_FULL_SECONDS` of oneUpPower.c. -/
def TOTAL_CHARGE_FULL_SECONDS : Int := 60 * 60

/-- The `struct PowerStatus` of oneUpPower.c. -/
structure PowerStatus where
  status : Int
  capacity : Int
  capacity_level : Int
  health : Int
  present : Int
  technology : Int
  timeleft : Int
  temperature : Int
  voltage : Int
deriving DecidableEq, Repr

/-- The module globals of oneUpPower.c: `battery`, `ac_online`,
`module_initialized`, and whether `monitor_task` is set. -/
structure Globals where
  battery : PowerStatus
  ac_online : Int
  module_initialized : Bool
  monitor_task : Bool
deriving DecidableEq, Repr

/-- The static initialiser of `battery`. -/
def battery_static : PowerStatus :=
  { status := POWER_SUPPLY_STATUS_DISCHARGING
    capacity := 90
    capacity_level := POWER_SUPPLY_CAPACITY_LEVEL_HIGH
    health := POWER_SUPPLY_HEALTH_GOOD
    present := 1
    technology := POWER_SUPPLY_TECHNOLOGY_LION
    timeleft := TOTAL_LIFE_SECONDS
    temperature := 30
    voltage := 4200 * 1000 }

/-- The static initialisers of the module globals. -/
def globals_static : Globals :=
  { battery := battery_static, ac_online := 1, module_initialized := false,
    monitor_task := false }

/-- What a function of oneUpPower.c does to the outside, in program order. -/
inductive Event where
  | kthread_stop
  | power_supply_changed (i : Nat)
  | ssleep (seconds : Nat)
  | power_supply_unregister (i : Nat)
deriving DecidableEq, Repr

/-- Result of a poller or teardown function: the globals after the call and
the events it emitted, in order. -/
structure Outcome where
  g : Globals
  events : List Event
deriving DecidableEq, Repr

/-- Embedding of `set_power_states`. -/
def set_power_states (g : Globals) : Globals :=
  let capacity := g.battery.capacity
  let g1 : Globals :=
    if capacity > 95 then
      { g with battery := { g.battery with capacity_level := POWER_SUPPLY_CAPACITY_LEVEL_FULL } }
    else if capacity > 85 then
      { g with battery := { g.battery with capacity_level := POWER_SUPPLY_CAPACITY_LEVEL_HIGH } }
    else if capacity > 40 then
      { g with battery := { g.battery with capacity_level := POWER_SUPPLY_CAPACITY_LEVEL_NORMAL } }
    else if capacity > 30 then
      { g with battery := { g.battery with capacity_level := POWER_SUPPLY_CAPACITY_LEVEL_LOW } }
    else
      { g with battery :=
          { g.battery with capacity_level := POWER_SUPPLY_CAPACITY_LEVEL_CRITICAL } }
  if g1.ac_online ≠ 0 then
    if capacity > 95 then
      { g1 with battery := { g1.battery with status := POWER_SUPPLY_STATUS_FULL } }
    else
      { g1 with battery := { g1.battery with status := POWER_SUPPLY_STATUS_CHARGING } }
  else
    { g1 with battery := { g1.battery with status := POWER_SUPPLY_STATUS_DISCHARGING } }

/-- The C expression `x & 0x80` on a two's-complement `int`: 128 when bit 7 of
`x` is set and 0 when it is clear. -/
def and_0x80 (x : Int) : Int := x / 128 % 2 * 128

/-- Embedding of `check_ac_power`; `current_high` is the value returned by the
read of `CURRENT_HIGH_REG`. -/
def check_ac_power (current_high : Int) (g : Globals) : Outcome :=
  let plugged_in : Int := if and_0x80 current_high > 0 then 0 else 1
  if g.ac_online ≠ plugged_in then
    ⟨set_power_states { g with ac_online := plugged_in }, []⟩
  else
    ⟨g, []⟩

/-- Embedding of `check_battery_state`; `soc` is the value returned by the read
of `SOC_HIGH_REG`. -/
def check_battery_state (soc : Int) (g : Globals) : Outcome :=
  let SOCPercent := if soc > 100 then 100 else soc
  let SOCPercent := if SOCPercent < 0 then 0 else SOCPercent
  if g.battery.capacity ≠ SOCPercent then
    ⟨set_power_states { g with battery := { g.battery with capacity := SOCPercent } },
     [Event.power_supply_changed ONEUP_BATTERY]⟩
  else
    ⟨g, []⟩

/-- Embedding of `oneup_power_exit`. -/
def oneup_power_exit (g : Globals) : Outcome :=
  let stop : List Event := if g.monitor_task then [Event.kthread_stop] else []
  let g1 := { g with monitor_task := false }
  let g2 := { g1 with ac_online := 0 }
  let g3 := { g2 with battery := { g2.battery with status := POWER_SUPPLY_STATUS_DISCHARGING } }
  let changed := (List.range ONEUP_POWER_NUM).map Event.power_supply_changed
  let unregister := (List.range ONEUP_POWER_NUM).map Event.power_supply_unregister
  ⟨{ g3 with module_initialized := false },
   stop ++ changed ++ [Event.ssleep 10] ++ unregister⟩

/-- The part of `oneup_power_init` that follows the registration of the
supplies and the start of the monitor task: `set_power_states` is run and the
module is marked initialised. -/
def oneup_power_init (g : Globals) : Globals :=
  { set_power_states { g with monitor_task := true } with module_initialized := true }

/-- The operations that act on the globals after initialisation. -/
inductive PollerOp where
  | ac_poll (current_high : Int)
  | battery_poll (soc : Int)
  | exit
deriving DecidableEq, Repr

/-- The globals after one operation. -/
def poller_apply (g : Globals) : PollerOp → Globals
  | PollerOp.ac_poll r => (check_ac_power r g).g
  | PollerOp.battery_poll r => (check_battery_state r g).g
  | PollerOp.exit => (oneup_power_exit g).g

/-- The globals after initialisation from `g0` followed by a sequence of operations. -/
def poller_run (g0 : Globals) (ops : List PollerOp) : Globals :=
  ops.foldl poller_apply (oneup_power_init g0)

/-- The consistency of the derived fields of the poller: status and capacity
level are the ones derived from the stored capacity and AC flag. -/
def consistent (g : Globals) : Prop :=
  g.battery.status = derived_status g.battery.capacity (decide (g.ac_online ≠ 0)) ∧
  g.battery.capacity_level = derived_level g.battery.capacity

/-- The globals `g` with the two inputs of the derivation replaced: the
capacity by `c` and `ac_online` by `a`. -/
def with_inputs (g : Globals) (c a : Int) : Globals :=
  { g with battery := { g.battery with capacity := c }, ac_online := a }

/-- The start of the coupling scenario: AC offline, capacity 50, Discharging
(the electrical values are the ones of `dummy_probe`). -/
def coupling_start : dummy_batt :=
  { capacity := 50, voltage_uV := DFLT_VOLTAGE_UV, current_uA := DFLT_CURRENT_UA,
    temp_deciC := DFLT_TEMP_DECIC, online_ac := false,
    status := POWER_SUPPLY_STATUS_DISCHARGING }

/-- Module parameters with a negative charge rate: start at 50 percent,
charging, `charge_rate=-60`. -/
def negative_rate_params : ModuleParams :=
  { default_params with start_capacity := 50, charge_rate := -60, start_charging := true }

/-- Module parameters that start the device charging, the rest being the defaults. -/
def charging_params : ModuleParams :=
  { default_params with start_charging := true }

/-- A device at capacity 99 that is charging (the electrical values are the
ones of `dummy_probe`). -/
def almost_full : dummy_batt :=
  { capacity := 99, voltage_uV := DFLT_VOLTAGE_UV, current_uA := DFLT_CURRENT_UA,
    temp_deciC := DFLT_TEMP_DECIC, online_ac := true,
    status := POWER_SUPPLY_STATUS_CHARGING }

/-! ## Further definitions: property tables, getters, teardown order, repeated ticks -/

/-- The table `dummy_props` of dummy_battery.c. -/
def dummy_props : List power_supply_property :=
  [POWER_SUPPLY_PROP_STATUS, POWER_SUPPLY_PROP_PRESENT, POWER_SUPPLY_PROP_ONLINE,
   POWER_SUPPLY_PROP_CAPACITY, POWER_SUPPLY_PROP_VOLTAGE_NOW, POWER_SUPPLY_PROP_CURRENT_NOW,
   POWER_SUPPLY_PROP_TEMP, POWER_SUPPLY_PROP_HEALTH, POWER_SUPPLY_PROP_TECHNOLOGY,
   POWER_SUPPLY_PROP_SCOPE]

/-- The table `power_ac_props` of oneUpPower.c. -/
def power_ac_props : List power_supply_property :=
  [POWER_SUPPLY_PROP_ONLINE]

/-- The table `power_battery_props` of oneUpPower.c. -/
def power_battery_props : List power_supply_property :=
  [POWER_SUPPLY_PROP_STATUS, POWER_SUPPLY_PROP_CHARGE_TYPE, POWER_SUPPLY_PROP_HEALTH,
   POWER_SUPPLY_PROP_PRESENT, POWER_SUPPLY_PROP_TECHNOLOGY, POWER_SUPPLY_PROP_CHARGE_EMPTY,
   POWER_SUPPLY_PROP_CHARGE_FULL_DESIGN, POWER_SUPPLY_PROP_CHARGE_FULL,
   POWER_SUPPLY_PROP_CHARGE_NOW, POWER_SUPPLY_PROP_CAPACITY, POWER_SUPPLY_PROP_CAPACITY_LEVEL,
   POWER_SUPPLY_PROP_TIME_TO_EMPTY_AVG, POWER_SUPPLY_PROP_TIME_TO_FULL_NOW,
   POWER_SUPPLY_PROP_MODEL_NAME, POWER_SUPPLY_PROP_MANUFACTURER,
   POWER_SUPPLY_PROP_SERIAL_NUMBER, POWER_SUPPLY_PROP_TEMP, POWER_SUPPLY_PROP_VOLTAGE_NOW]

/-- The kernel's `union power_supply_propval`: the member a getter stores. -/
inductive propval where
  | intval (v : Int)
  | strval (s : String)
deriving DecidableEq, Repr

/-- Result of a getter of oneUpPower.c or test_power.c: the return code and
the member stored in `val` (`none` when nothing is stored). -/
structure PropResult where
  ret : Int
  val : Option propval
deriving DecidableEq, Repr

/-- The model name string of oneUpPower.c. -/
def ONEUP_MODEL_NAME : String := "oneUp Battery"

/-- The manufacturer string of oneUpPower.c. -/
def ONEUP_MANUFACTURER : String := "Argon40"

/-- Embedding of `get_ac_property` of oneUpPower.c. -/
def get_ac_property (g : Globals) (psp : power_supply_property) : PropResult :=
  match psp with
  | POWER_SUPPLY_PROP_ONLINE => ⟨0, some (propval.intval g.ac_online)⟩
  | _ => ⟨-EINVAL, none⟩

/-- Embedding of `get_battery_int_property` of oneUpPower.c. The products are
C `int` products (wrapped) and `/` is the truncating C division. -/
def get_battery_int_property (g : Globals) (psp : power_supply_property) : PropResult :=
  match psp with
  | POWER_SUPPLY_PROP_STATUS => ⟨0, some (propval.intval g.battery.status)⟩
  | POWER_SUPPLY_PROP_CHARGE_TYPE => ⟨0, some (propval.intval POWER_SUPPLY_CHARGE_TYPE_FAST)⟩
  | POWER_SUPPLY_PROP_HEALTH => ⟨0, some (propval.intval g.battery.health)⟩
  | POWER_SUPPLY_PROP_PRESENT => ⟨0, some (propval.intval g.battery.present)⟩
  | POWER_SUPPLY_PROP_TECHNOLOGY => ⟨0, some (propval.intval g.battery.technology)⟩
  | POWER_SUPPLY_PROP_CAPACITY_LEVEL => ⟨0, some (propval.intval g.battery.capacity_level)⟩
  | POWER_SUPPLY_PROP_CAPACITY => ⟨0, some (propval.intval g.battery.capacity)⟩
  | POWER_SUPPLY_PROP_CHARGE_EMPTY => ⟨0, some (propval.intval 0)⟩
  | POWER_SUPPLY_PROP_CHARGE_NOW =>
    ⟨0, some (propval.intval (Int.tdiv (wrap32 (g.battery.capacity * TOTAL_CHARGE)) 100))⟩
  | POWER_SUPPLY_PROP_CHARGE_FULL_DESIGN => ⟨0, some (propval.intval TOTAL_CHARGE)⟩
  | POWER_SUPPLY_PROP_CHARGE_FULL => ⟨0, some (propval.intval TOTAL_CHARGE)⟩
  | POWER_SUPPLY_PROP_TIME_TO_EMPTY_AVG => ⟨0, some (propval.intval g.battery.timeleft)⟩
  | POWER_SUPPLY_PROP_TIME_TO_FULL_NOW =>
    ⟨0, some (propval.intval
      (Int.tdiv (wrap32 (wrap32 (100 - g.battery.capacity) * TOTAL_CHARGE_FULL_SECONDS)) 100))⟩
  | POWER_SUPPLY_PROP_TEMP => ⟨0, some (propval.intval g.battery.temperature)⟩
  | POWER_SUPPLY_PROP_VOLTAGE_NOW => ⟨0, some (propval.intval g.battery.voltage)⟩
  | _ => ⟨-EINVAL, none⟩

/-- Embedding of `get_battery_property` of oneUpPower.c; `uts_release` is the
kernel's `UTS_RELEASE` string. -/
def get_battery_property (uts_release : String) (g : Globals) (psp : power_supply_property) :
    PropResult :=
  match psp with
  | POWER_SUPPLY_PROP_MODEL_NAME => ⟨0, some (propval.strval ONEUP_MODEL_NAME)⟩
  | POWER_SUPPLY_PROP_MANUFACTURER => ⟨0, some (propval.strval ONEUP_MANUFACTURER)⟩
  | POWER_SUPPLY_PROP_SERIAL_NUMBER => ⟨0, some (propval.strval uts_release)⟩
  | _ => get_battery_int_property g psp

/-- Whether an event is a change notification. -/
def is_changed : Event → Bool
  | Event.power_supply_changed _ => true
  | _ => false

/-- Whether a change notification is emitted after the stop of the monitor
task has been requested, in a sequence of events given in program order. -/
def changed_after_stop : List Event → Bool
  | [] => false
  | Event.kthread_stop :: rest => rest.any is_changed
  | _ :: rest => changed_after_stop rest

/-- The device state after `n` consecutive ticks with no write in between. -/
def ticks (charge_rate discharge_rate : Int) : Nat → dummy_batt → dummy_batt
  | 0, db => db
  | n + 1, db =>
    (dummy_sim_work charge_rate discharge_rate (ticks charge_rate discharge_rate n db)).db

/-- Module parameters with a zero charge rate: start charging at the default
75 percent, `charge_rate=0`. -/
def zero_rate_params : ModuleParams :=
  { default_params with charge_rate := 0, start_charging := true }

/-- Module parameters with the largest `int` as charge rate: start charging at
50 percent, `charge_rate=2147483647`. -/
def max_rate_params : ModuleParams :=
  { default_params with
    start_capacity := 50
    charge_rate := 2147483647
    start_charging := true }

/-! ## test_power.c -/

namespace TestPower

/-- `TOTAL_LIFE_SECONDS` of test_power.c. -/
def TOTAL_LIFE_SECONDS : Int := 3 * 60 * 60

/-- `TOTAL_CHARGE` of test_power.c. -/
def TOTAL_CHARGE : Int := 2000 * 1000

/-- `TOTAL_CHARGE_FULL_SECONDS` of test_power.c. -/
def TOTAL_CHARGE_FULL_SECONDS : Int := 60 * 60

/-- The module globals of test_power.c that the battery getter reads. -/
structure Globals where
  ac_online : Int
  battery_status : Int
  battery_level : Int
  battery_health : Int
  battery_present : Int
  battery_technology : Int
  battery_capacity : Int
  battery_timeleft : Int
  battery_temperature : Int
  battery_voltage : Int
deriving DecidableEq, Repr

/-- The static initialisers of the globals of test_power.c. -/
def globals_static : Globals :=
  { ac_online := 1
    battery_status := POWER_SUPPLY_STATUS_CHARGING
    battery_level := POWER_SUPPLY_CAPACITY_LEVEL_HIGH
    battery_health := POWER_SUPPLY_HEALTH_GOOD
    battery_present := 1
    battery_technology := POWER_SUPPLY_TECHNOLOGY_LION
    battery_capacity := 80
    battery_timeleft := TOTAL_LIFE_SECONDS
    battery_temperature := 30
    battery_voltage := 4200 * 1000 }

/-- The model name string of test_power.c. -/
def MODEL_NAME : String := "Test battery"

/-- The manufacturer string of test_power.c. -/
def MANUFACTURER : String := "Linux"

/-- Embedding of `test_power_get_battery_property` (the `DEBUG_INFO` log lines
store nothing); `uts_release` is the kernel's `UTS_RELEASE` string. -/
def test_power_get_battery_property (uts_release : String) (g : Globals)
    (psp : power_supply_property) : PropResult :=
  match psp with
  | POWER_SUPPLY_PROP_MODEL_NAME => ⟨0, some (propval.strval MODEL_NAME)⟩
  | POWER_SUPPLY_PROP_MANUFACTURER => ⟨0, some (propval.strval MANUFACTURER)⟩
  | POWER_SUPPLY_PROP_SERIAL_NUMBER => ⟨0, some (propval.strval uts_release)⟩
  | POWER_SUPPLY_PROP_STATUS => ⟨0, some (propval.intval g.battery_status)⟩
  | POWER_SUPPLY_PROP_CHARGE_TYPE => ⟨0, some (propval.intval POWER_SUPPLY_CHARGE_TYPE_FAST)⟩
  | POWER_SUPPLY_PROP_HEALTH => ⟨0, some (propval.intval g.battery_health)⟩
  | POWER_SUPPLY_PROP_PRESENT => ⟨0, some (propval.intval g.battery_present)⟩
  | POWER_SUPPLY_PROP_TECHNOLOGY => ⟨0, some (propval.intval g.battery_technology)⟩
  | POWER_SUPPLY_PROP_CAPACITY_LEVEL => ⟨0, some (propval.intval g.battery_level)⟩
  | POWER_SUPPLY_PROP_CAPACITY => ⟨0, some (propval.intval g.battery_capacity)⟩
  | POWER_SUPPLY_PROP_CHARGE_EMPTY => ⟨0, some (propval.intval 0)⟩
  | POWER_SUPPLY_PROP_CHARGE_NOW =>
    ⟨0, some (propval.intval (Int.tdiv (wrap32 (g.battery_capacity * TOTAL_CHARGE)) 100))⟩
  | POWER_SUPPLY_PROP_CHARGE_FULL_DESIGN => ⟨0, some (propval.intval TOTAL_CHARGE)⟩
  | POWER_SUPPLY_PROP_CHARGE_FULL => ⟨0, some (propval.intval TOTAL_CHARGE)⟩
  | POWER_SUPPLY_PROP_TIME_TO_EMPTY_AVG => ⟨0, some (propval.intval g.battery_timeleft)⟩
  | POWER_SUPPLY_PROP_TIME_TO_FULL_NOW =>
    ⟨0, some (propval.intval
      (Int.tdiv (wrap32 (wrap32 (100 - g.battery_capacity) * TOTAL_CHARGE_FULL_SECONDS)) 100))⟩
  | POWER_SUPPLY_PROP_TEMP => ⟨0, some (propval.intval g.battery_temperature)⟩
  | POWER_SUPPLY_PROP_VOLTAGE_NOW => ⟨0, some (propval.intval g.battery_voltage)⟩
  | _ => ⟨-EINVAL, none⟩

end TestPower

/-! ## Theorems: dummy_battery.c -/

/-- C1: for every state and every integer v, writing CAPACITY fails with
-ERANGE and leaves the capacity unchanged when v < 0 or v > 100; when
0 <= v <= 100 it returns 0 and a following read of CAPACITY returns exactly v. -/
theorem C1_set_capacity_range (s : dummy_batt) (v : Int) :
    ((v < 0 ∨ v > 100) →
        (dummy_set_property s POWER_SUPPLY_PROP_CAPACITY v).ret = -ERANGE ∧
        (dummy_set_property s POWER_SUPPLY_PROP_CAPACITY v).db.capacity = s.capacity) ∧
    ((0 ≤ v ∧ v ≤ 100) →
        (dummy_set_property s POWER_SUPPLY_PROP_CAPACITY v).ret = 0 ∧
        dummy_get_property (dummy_set_property s POWER_SUPPLY_PROP_CAPACITY v).db
          POWER_SUPPLY_PROP_CAPACITY = ⟨0, some v⟩) := by
  constructor
  · intro h
    simp [dummy_set_property, h]
  · intro h
    have h1 : ¬ (v < 0 ∨ v > 100) := by omega
    simp [dummy_set_property, dummy_get_property, h1]

/-- Witness of C1 at v = 101 (rejected) and v = 100 (accepted) from the probed default state. -/
theorem C1_set_capacity_range_witness :
    ((dummy_set_property (dummy_probe default_params) POWER_SUPPLY_PROP_CAPACITY 101).ret = -34 ∧
      (dummy_set_property (dummy_probe default_params)
        POWER_SUPPLY_PROP_CAPACITY 101).db.capacity = 75) ∧
    ((dummy_set_property (dummy_probe default_params) POWER_SUPPLY_PROP_CAPACITY 100).ret = 0 ∧
      dummy_get_property (dummy_set_property (dummy_probe default_params)
        POWER_SUPPLY_PROP_CAPACITY 100).db POWER_SUPPLY_PROP_CAPACITY = ⟨0, some 100⟩) :=
  ⟨(C1_set_capacity_range (dummy_probe default_params) 101).1 (by decide),
   (C1_set_capacity_range (dummy_probe default_params) 100).2 (by decide)⟩

/-- Every write returns 0 or an error, and a write that returns an error
leaves the device state as it was and notifies nothing. -/
theorem set_rejected_unchanged (s : dummy_batt) (psp : power_supply_property) (v : Int) :
    ((dummy_set_property s psp v).ret = 0 ∨ (dummy_set_property s psp v).ret ≠ 0) ∧
    ((dummy_set_property s psp v).ret ≠ 0 →
      (dummy_set_property s psp v).db = s ∧ (dummy_set_property s psp v).notified = 0) := by
  cases psp <;> simp only [dummy_set_property] <;> (try split_ifs) <;>
    simp [EINVAL, ERANGE]

/-- C2: a write is atomic. Every call returns 0, -EINVAL or -ERANGE; when it
returns an error the whole device state is the state before the call and no
change notification is emitted; when it returns 0 exactly one is emitted. -/
theorem C2_set_atomic (s : dummy_batt) (psp : power_supply_property) (v : Int) :
    ((dummy_set_property s psp v).ret = 0 ∨ (dummy_set_property s psp v).ret = -EINVAL ∨
      (dummy_set_property s psp v).ret = -ERANGE) ∧
    ((dummy_set_property s psp v).ret = -EINVAL ∨ (dummy_set_property s psp v).ret = -ERANGE →
      (dummy_set_property s psp v).db = s ∧
      (dummy_set_property s psp v).db.capacity = s.capacity ∧
      (dummy_set_property s psp v).db.status = s.status ∧
      (dummy_set_property s psp v).db.online_ac = s.online_ac ∧
      (dummy_set_property s psp v).db.voltage_uV = s.voltage_uV ∧
      (dummy_set_property s psp v).db.current_uA = s.current_uA ∧
      (dummy_set_property s psp v).db.temp_deciC = s.temp_deciC ∧
      (dummy_set_property s psp v).notified = 0) ∧
    ((dummy_set_property s psp v).ret = 0 → (dummy_set_property s psp v).notified = 1) := by
  cases psp <;> simp only [dummy_set_property] <;> (try split_ifs) <;>
    simp [EINVAL, ERANGE]

/-- Witness of C2: a rejected write of STATUS (value 0) and an accepted write of ONLINE. -/
theorem C2_set_atomic_witness :
    ((dummy_set_property coupling_start POWER_SUPPLY_PROP_STATUS 0).db = coupling_start ∧
      (dummy_set_property coupling_start POWER_SUPPLY_PROP_STATUS 0).notified = 0) ∧
    (dummy_set_property coupling_start POWER_SUPPLY_PROP_ONLINE 1).notified = 1 :=
  ⟨⟨((C2_set_atomic coupling_start POWER_SUPPLY_PROP_STATUS 0).2.1
        (Or.inl (by decide))).1,
    ((C2_set_atomic coupling_start POWER_SUPPLY_PROP_STATUS 0).2.1
        (Or.inl (by decide))).2.2.2.2.2.2.2⟩,
   (C2_set_atomic coupling_start POWER_SUPPLY_PROP_ONLINE 1).2.2 (by decide)⟩

/-- C4, as the claim states it, fails: from AC offline, capacity 50 and
Discharging, the write ONLINE = 1 followed by the write CAPACITY = 96 both
succeed and leave AC online with capacity 96, yet the stored status is
Charging and not the status Full derived for that pair. -/
theorem C4_counterexample :
    (dummy_set_property coupling_start POWER_SUPPLY_PROP_ONLINE 1).ret = 0 ∧
    (dummy_set_property (dummy_set_property coupling_start POWER_SUPPLY_PROP_ONLINE 1).db
      POWER_SUPPLY_PROP_CAPACITY 96).ret = 0 ∧
    (dummy_set_property (dummy_set_property coupling_start POWER_SUPPLY_PROP_ONLINE 1).db
      POWER_SUPPLY_PROP_CAPACITY 96).db.online_ac = true ∧
    (dummy_set_property (dummy_set_property coupling_start POWER_SUPPLY_PROP_ONLINE 1).db
      POWER_SUPPLY_PROP_CAPACITY 96).db.capacity = 96 ∧
    (dummy_set_property (dummy_set_property coupling_start POWER_SUPPLY_PROP_ONLINE 1).db
      POWER_SUPPLY_PROP_CAPACITY 96).db.status = POWER_SUPPLY_STATUS_CHARGING ∧
    (dummy_set_property (dummy_set_property coupling_start POWER_SUPPLY_PROP_ONLINE 1).db
      POWER_SUPPLY_PROP_CAPACITY 96).db.status ≠ derived_status 96 true ∧
    derived_status 96 true = POWER_SUPPLY_STATUS_FULL := by
  decide

/-- C4 (amended): a write of ONLINE always succeeds and stores the status
Charging when the written value is non-zero and Discharging when it is zero,
whatever the capacity; a successful write of CAPACITY leaves the status and
online_ac as they were. In the scenario, ONLINE = 1 gives Charging and the
following CAPACITY = 96 leaves Charging. -/
theorem C4_set_status_coupling (s : dummy_batt) (v : Int) :
    (dummy_set_property s POWER_SUPPLY_PROP_ONLINE v).ret = 0 ∧
    (v ≠ 0 → (dummy_set_property s POWER_SUPPLY_PROP_ONLINE v).db.online_ac = true ∧
      (dummy_set_property s POWER_SUPPLY_PROP_ONLINE v).db.status
        = POWER_SUPPLY_STATUS_CHARGING) ∧
    (v = 0 → (dummy_set_property s POWER_SUPPLY_PROP_ONLINE v).db.online_ac = false ∧
      (dummy_set_property s POWER_SUPPLY_PROP_ONLINE v).db.status
        = POWER_SUPPLY_STATUS_DISCHARGING) ∧
    (dummy_set_property s POWER_SUPPLY_PROP_ONLINE v).db.capacity = s.capacity ∧
    ((dummy_set_property s POWER_SUPPLY_PROP_CAPACITY v).ret = 0 →
      (dummy_set_property s POWER_SUPPLY_PROP_CAPACITY v).db.capacity = v ∧
      (dummy_set_property s POWER_SUPPLY_PROP_CAPACITY v).db.status = s.status ∧
      (dummy_set_property s POWER_SUPPLY_PROP_CAPACITY v).db.online_ac = s.online_ac) ∧
    (dummy_set_property coupling_start POWER_SUPPLY_PROP_ONLINE 1).db.status
      = POWER_SUPPLY_STATUS_CHARGING ∧
    (dummy_set_property (dummy_set_property coupling_start POWER_SUPPLY_PROP_ONLINE 1).db
      POWER_SUPPLY_PROP_CAPACITY 96).db.status = POWER_SUPPLY_STATUS_CHARGING := by
  refine ⟨rfl, ?_, ?_, rfl, ?_, by decide, by decide⟩
  · intro h
    simp [dummy_set_property, h]
  · intro h
    simp [dummy_set_property, h]
  · simp only [dummy_set_property]
    split_ifs <;> simp [ERANGE]

/-- Witness of the amended C4: the write ONLINE = 1 at capacity 96 stores
Charging, and the write CAPACITY = 96 on a Discharging device keeps Discharging. -/
theorem C4_set_status_coupling_witness :
    ((dummy_set_property { coupling_start with capacity := 96 }
        POWER_SUPPLY_PROP_ONLINE 1).db.online_ac = true ∧
      (dummy_set_property { coupling_start with capacity := 96 }
        POWER_SUPPLY_PROP_ONLINE 1).db.status = POWER_SUPPLY_STATUS_CHARGING) ∧
    ((dummy_set_property coupling_start POWER_SUPPLY_PROP_CAPACITY 96).db.capacity = 96 ∧
      (dummy_set_property coupling_start POWER_SUPPLY_PROP_CAPACITY 96).db.status
        = POWER_SUPPLY_STATUS_DISCHARGING ∧
      (dummy_set_property coupling_start POWER_SUPPLY_PROP_CAPACITY 96).db.online_ac
        = false) :=
  ⟨(C4_set_status_coupling { coupling_start with capacity := 96 } 1).2.1 (by decide),
   (C4_set_status_coupling coupling_start 96).2.2.2.2.1 (by decide)⟩

/-- The initial capacity built by `dummy_probe` is within 0..100 for every
configured `start_capacity`. -/
theorem dummy_probe_capacity_range (p : ModuleParams) :
    0 ≤ (dummy_probe p).capacity ∧ (dummy_probe p).capacity ≤ 100 := by
  simp only [dummy_probe, clamp]
  omega

/-- Every write, accepted or rejected, keeps the capacity within 0..100. -/
theorem dummy_set_property_capacity_range (s : dummy_batt) (psp : power_supply_property)
    (v : Int) (h : 0 ≤ s.capacity ∧ s.capacity ≤ 100) :
    0 ≤ (dummy_set_property s psp v).db.capacity ∧
    (dummy_set_property s psp v).db.capacity ≤ 100 := by
  cases psp <;> simp only [dummy_set_property] <;> (try split_ifs) <;>
    first | exact h | (simp only []; omega)

/-- The electrical part of the tick leaves capacity and status as they are. -/
theorem sim_electrical_frame (s : dummy_batt) :
    (sim_electrical s).capacity = s.capacity ∧ (sim_electrical s).status = s.status ∧
    (sim_electrical s).online_ac = s.online_ac ∧
    (sim_electrical s).temp_deciC = s.temp_deciC := by
  simp only [sim_electrical]
  split_ifs <;> simp

/-- A tick keeps the capacity within 0..100 when both rates are non-negative
and small enough for `capacity + rate` not to overflow. -/
theorem dummy_sim_work_capacity_range (cr dr : Int) (s : dummy_batt)
    (hcr : 0 ≤ cr ∧ cr ≤ 2147483547) (hdr : 0 ≤ dr ∧ dr ≤ 2147483547)
    (h : 0 ≤ s.capacity ∧ s.capacity ≤ 100) :
    0 ≤ (dummy_sim_work cr dr s).db.capacity ∧
    (dummy_sim_work cr dr s).db.capacity ≤ 100 := by
  simp only [dummy_sim_work, (sim_electrical_frame _).1]
  simp only [sim_step, wrap32]
  split_ifs <;> simp only [] <;> omega

/-- C5: the tick does not keep 0 <= capacity <= 100 for every configured rate.
With start_capacity=50, start_charging and charge_rate=-60 the probed state
is in range (capacity 50), and after one tick the capacity is -10. -/
theorem C5_tick_leaves_capacity_range :
    (dummy_probe negative_rate_params).capacity = 50 ∧
    (dummy_probe negative_rate_params).status = POWER_SUPPLY_STATUS_CHARGING ∧
    (dummy_run negative_rate_params [DummyOp.tick]).capacity = -10 ∧
    ¬ (0 ≤ (dummy_run negative_rate_params [DummyOp.tick]).capacity ∧
        (dummy_run negative_rate_params [DummyOp.tick]).capacity ≤ 100) := by
  decide

/-- C7: from capacity 99 and Charging with charge_rate 2, one tick gives
capacity 100 and Full, and a second tick leaves capacity 100 and Full and
notifies nothing. In general a tick leaves capacity and status unchanged and
notifies nothing in every state whose status is Full or NotCharging, or
Charging at capacity 100, or Discharging at capacity 0, for all rates. -/
theorem C7_tick_idempotent_at_boundaries (cr dr : Int) (s : dummy_batt) :
    ((s.status = POWER_SUPPLY_STATUS_FULL ∨ s.status = POWER_SUPPLY_STATUS_NOT_CHARGING ∨
        (s.status = POWER_SUPPLY_STATUS_CHARGING ∧ s.capacity = 100) ∨
        (s.status = POWER_SUPPLY_STATUS_DISCHARGING ∧ s.capacity = 0)) →
      (dummy_sim_work cr dr s).db.capacity = s.capacity ∧
      (dummy_sim_work cr dr s).db.status = s.status ∧
      (dummy_sim_work cr dr s).notified = 0) ∧
    ((s.capacity = 99 ∧ s.status = POWER_SUPPLY_STATUS_CHARGING) →
      (dummy_sim_work 2 dr s).db.capacity = 100 ∧
      (dummy_sim_work 2 dr s).db.status = POWER_SUPPLY_STATUS_FULL ∧
      (dummy_sim_work 2 dr (dummy_sim_work 2 dr s).db).db.capacity = 100 ∧
      (dummy_sim_work 2 dr (dummy_sim_work 2 dr s).db).db.status
        = POWER_SUPPLY_STATUS_FULL ∧
      (dummy_sim_work 2 dr (dummy_sim_work 2 dr s).db).notified = 0) := by
  have boundary : ∀ (c d : Int) (t : dummy_batt),
      (t.status = POWER_SUPPLY_STATUS_FULL ∨ t.status = POWER_SUPPLY_STATUS_NOT_CHARGING ∨
        (t.status = POWER_SUPPLY_STATUS_CHARGING ∧ t.capacity = 100) ∨
        (t.status = POWER_SUPPLY_STATUS_DISCHARGING ∧ t.capacity = 0)) →
      sim_step c d t = (t, false) := by
    intro c d t ht
    simp only [sim_step, POWER_SUPPLY_STATUS_FULL, POWER_SUPPLY_STATUS_NOT_CHARGING,
      POWER_SUPPLY_STATUS_CHARGING, POWER_SUPPLY_STATUS_DISCHARGING] at ht ⊢
    have h1 : ¬ (t.status = 1 ∧ t.capacity < 100) := by omega
    have h2 : ¬ (t.status = 2 ∧ t.capacity > 0) := by omega
    rw [if_neg h1, if_neg h2]
  have hfirst : s.capacity = 99 ∧ s.status = POWER_SUPPLY_STATUS_CHARGING →
      sim_step 2 dr s
        = ({ s with capacity := 100, status := POWER_SUPPLY_STATUS_FULL }, true) := by
    intro hs
    simp [sim_step, hs.1, hs.2, wrap32]
  have part1 : ∀ (c d : Int) (t : dummy_batt),
      (t.status = POWER_SUPPLY_STATUS_FULL ∨ t.status = POWER_SUPPLY_STATUS_NOT_CHARGING ∨
        (t.status = POWER_SUPPLY_STATUS_CHARGING ∧ t.capacity = 100) ∨
        (t.status = POWER_SUPPLY_STATUS_DISCHARGING ∧ t.capacity = 0)) →
      (dummy_sim_work c d t).db.capacity = t.capacity ∧
      (dummy_sim_work c d t).db.status = t.status ∧
      (dummy_sim_work c d t).notified = 0 := by
    intro c d t ht
    simp [dummy_sim_work, boundary c d t ht, (sim_electrical_frame t).1,
      (sim_electrical_frame t).2.1]
  constructor
  · exact part1 cr dr s
  · intro hs
    have e1 : (dummy_sim_work 2 dr s).db.capacity = 100 := by
      simp [dummy_sim_work, hfirst hs, (sim_electrical_frame _).1]
    have e2 : (dummy_sim_work 2 dr s).db.status = POWER_SUPPLY_STATUS_FULL := by
      simp [dummy_sim_work, hfirst hs, (sim_electrical_frame _).2.1]
    have b := part1 2 dr (dummy_sim_work 2 dr s).db (Or.inl e2)
    exact ⟨e1, e2, b.1.trans e1, b.2.1.trans e2, b.2.2⟩

/-- Witness of C7 at the charging device with capacity 99 and at the full
device a tick makes of it. -/
theorem C7_tick_idempotent_at_boundaries_witness :
    ((dummy_sim_work 2 1 (dummy_sim_work 2 1 almost_full).db).db.capacity
        = (dummy_sim_work 2 1 almost_full).db.capacity ∧
      (dummy_sim_work 2 1 (dummy_sim_work 2 1 almost_full).db).db.status
        = (dummy_sim_work 2 1 almost_full).db.status ∧
      (dummy_sim_work 2 1 (dummy_sim_work 2 1 almost_full).db).notified = 0) ∧
    ((dummy_sim_work 2 1 almost_full).db.capacity = 100 ∧
      (dummy_sim_work 2 1 almost_full).db.status = POWER_SUPPLY_STATUS_FULL ∧
      (dummy_sim_work 2 1 (dummy_sim_work 2 1 almost_full).db).db.capacity = 100 ∧
      (dummy_sim_work 2 1 (dummy_sim_work 2 1 almost_full).db).db.status
        = POWER_SUPPLY_STATUS_FULL ∧
      (dummy_sim_work 2 1 (dummy_sim_work 2 1 almost_full).db).notified = 0) :=
  ⟨(C7_tick_idempotent_at_boundaries 2 1 (dummy_sim_work 2 1 almost_full).db).1
      (Or.inl (by decide)),
   (C7_tick_idempotent_at_boundaries 2 1 almost_full).2 (by decide)⟩

/-- No write changes the electrical values or the temperature. -/
theorem dummy_set_property_electrical_frame (s : dummy_batt) (psp : power_supply_property)
    (v : Int) :
    (dummy_set_property s psp v).db.current_uA = s.current_uA ∧
    (dummy_set_property s psp v).db.voltage_uV = s.voltage_uV ∧
    (dummy_set_property s psp v).db.temp_deciC = s.temp_deciC := by
  cases psp <;> simp only [dummy_set_property] <;> (try split_ifs) <;> simp

/-- The current stored by the electrical part of the tick: +80000 while
Charging, -50000 while Discharging, 0 for every other status. -/
theorem sim_electrical_current (s : dummy_batt) :
    (sim_electrical s).current_uA =
      if s.status = POWER_SUPPLY_STATUS_CHARGING then 80000
      else if s.status = POWER_SUPPLY_STATUS_DISCHARGING then -50000 else 0 := by
  simp only [sim_electrical]
  split_ifs <;> rfl

/-- C9, as the claim states it, fails: the device probed with start_charging
set is ticked once (Charging, +80000 uA) and then written STATUS =
Discharging; the reachable state has status Discharging with current
+80000 uA, which is positive. -/
theorem C9_counterexample :
    (dummy_run charging_params
      [DummyOp.tick,
       DummyOp.set POWER_SUPPLY_PROP_STATUS POWER_SUPPLY_STATUS_DISCHARGING]).status
      = POWER_SUPPLY_STATUS_DISCHARGING ∧
    (dummy_run charging_params
      [DummyOp.tick,
       DummyOp.set POWER_SUPPLY_PROP_STATUS POWER_SUPPLY_STATUS_DISCHARGING]).current_uA
      = 80000 ∧
    ¬ current_agrees (dummy_run charging_params
      [DummyOp.tick,
       DummyOp.set POWER_SUPPLY_PROP_STATUS POWER_SUPPLY_STATUS_DISCHARGING]) := by
  decide

/-- C9 (amended): right after every tick the current agrees with the status:
it is +80000 when the status is Charging, -50000 when it is Discharging and 0
for every other status; so the agreement holds in every reachable state whose
last operation is a tick. A write never changes current_uA, so the agreement
is kept by every write that leaves the status as it was (every rejected write
and every write of CAPACITY). -/
theorem C9_current_agrees_after_tick (p : ModuleParams) (ops : List DummyOp)
    (cr dr : Int) (s : dummy_batt) (psp : power_supply_property) (v : Int) :
    current_agrees (dummy_sim_work cr dr s).db ∧
    ((dummy_sim_work cr dr s).db.status = POWER_SUPPLY_STATUS_CHARGING →
      (dummy_sim_work cr dr s).db.current_uA = 80000) ∧
    ((dummy_sim_work cr dr s).db.status = POWER_SUPPLY_STATUS_DISCHARGING →
      (dummy_sim_work cr dr s).db.current_uA = -50000) ∧
    ((dummy_sim_work cr dr s).db.status ≠ POWER_SUPPLY_STATUS_CHARGING ∧
        (dummy_sim_work cr dr s).db.status ≠ POWER_SUPPLY_STATUS_DISCHARGING →
      (dummy_sim_work cr dr s).db.current_uA = 0) ∧
    current_agrees (dummy_run p (ops ++ [DummyOp.tick])) ∧
    (dummy_set_property s psp v).db.current_uA = s.current_uA ∧
    (current_agrees s → (dummy_set_property s psp v).db.status = s.status →
      current_agrees (dummy_set_property s psp v).db) ∧
    (current_agrees s → (dummy_set_property s psp v).ret ≠ 0 →
      current_agrees (dummy_set_property s psp v).db) ∧
    (current_agrees s →
      current_agrees (dummy_set_property s POWER_SUPPLY_PROP_CAPACITY v).db) := by
  have hexact : ∀ (c d : Int) (t : dummy_batt),
      (dummy_sim_work c d t).db.current_uA =
        if (dummy_sim_work c d t).db.status = POWER_SUPPLY_STATUS_CHARGING then 80000
        else if (dummy_sim_work c d t).db.status = POWER_SUPPLY_STATUS_DISCHARGING
          then -50000 else 0 := by
    intro c d t
    simp only [dummy_sim_work, sim_electrical_current, (sim_electrical_frame _).2.1]
  have agrees : ∀ (c d : Int) (t : dummy_batt), current_agrees (dummy_sim_work c d t).db := by
    intro c d t
    have e := hexact c d t
    simp only [current_agrees, POWER_SUPPLY_STATUS_CHARGING,
      POWER_SUPPLY_STATUS_DISCHARGING, POWER_SUPPLY_STATUS_FULL,
      POWER_SUPPLY_STATUS_NOT_CHARGING] at e ⊢
    split_ifs at e <;> omega
  have keep : current_agrees s → (dummy_set_property s psp v).db.status = s.status →
      current_agrees (dummy_set_property s psp v).db := by
    intro hs hst
    simp only [current_agrees, hst, (dummy_set_property_electrical_frame s psp v).1]
    exact hs
  refine ⟨agrees cr dr s, ?_, ?_, ?_, ?_,
    (dummy_set_property_electrical_frame s psp v).1, keep, ?_, ?_⟩
  · intro h
    rw [hexact, if_pos h]
  · intro h
    have h1 : (dummy_sim_work cr dr s).db.status ≠ POWER_SUPPLY_STATUS_CHARGING := by
      rw [h]; decide
    rw [hexact, if_neg h1, if_pos h]
  · intro h
    rw [hexact, if_neg h.1, if_neg h.2]
  · simp only [dummy_run, List.foldl_append, List.foldl_cons, List.foldl_nil, dummy_apply]
    exact agrees _ _ _
  · intro hs hret
    have e : (dummy_set_property s psp v).db = s := by
      have a := set_rejected_unchanged s psp v
      rcases a.1 with h0 | h1
      · exact absurd h0 hret
      · exact (a.2 h1).1
    rw [e]
    exact hs
  · intro hs
    have hst : (dummy_set_property s POWER_SUPPLY_PROP_CAPACITY v).db.status = s.status := by
      simp only [dummy_set_property]
      split_ifs <;> rfl
    simp only [current_agrees, hst,
      (dummy_set_property_electrical_frame s POWER_SUPPLY_PROP_CAPACITY v).1]
    exact hs

/-- Witness of the amended C9: the rejected write CAPACITY = 101 on the ticked
default device keeps the agreement of current and status. -/
theorem C9_current_agrees_after_tick_witness :
    current_agrees (dummy_set_property (dummy_sim_work 2 1 (dummy_probe default_params)).db
      POWER_SUPPLY_PROP_CAPACITY 101).db :=
  (C9_current_agrees_after_tick default_params [] 2 1
    (dummy_sim_work 2 1 (dummy_probe default_params)).db
    POWER_SUPPLY_PROP_CAPACITY 101).2.2.2.2.2.2.2.1 (by decide) (by decide)

/-- C10: for every state and every integer v, the write STATUS = v succeeds
exactly when v is Charging, Discharging, NotCharging or Full; then the stored
status is v and capacity and online_ac are unchanged. For every other v, the
Unknown value 0 included, it fails with -EINVAL and the status is unchanged. -/
theorem C10_set_status_validation (s : dummy_batt) (v : Int) :
    ((dummy_set_property s POWER_SUPPLY_PROP_STATUS v).ret = 0 ↔
      (v = POWER_SUPPLY_STATUS_CHARGING ∨ v = POWER_SUPPLY_STATUS_DISCHARGING ∨
        v = POWER_SUPPLY_STATUS_NOT_CHARGING ∨ v = POWER_SUPPLY_STATUS_FULL)) ∧
    ((v = POWER_SUPPLY_STATUS_CHARGING ∨ v = POWER_SUPPLY_STATUS_DISCHARGING ∨
        v = POWER_SUPPLY_STATUS_NOT_CHARGING ∨ v = POWER_SUPPLY_STATUS_FULL) →
      (dummy_set_property s POWER_SUPPLY_PROP_STATUS v).db.status = v ∧
      (dummy_set_property s POWER_SUPPLY_PROP_STATUS v).db.capacity = s.capacity ∧
      (dummy_set_property s POWER_SUPPLY_PROP_STATUS v).db.online_ac = s.online_ac) ∧
    (¬ (v = POWER_SUPPLY_STATUS_CHARGING ∨ v = POWER_SUPPLY_STATUS_DISCHARGING ∨
        v = POWER_SUPPLY_STATUS_NOT_CHARGING ∨ v = POWER_SUPPLY_STATUS_FULL) →
      (dummy_set_property s POWER_SUPPLY_PROP_STATUS v).ret = -EINVAL ∧
      (dummy_set_property s POWER_SUPPLY_PROP_STATUS v).db.status = s.status) ∧
    (dummy_set_property s POWER_SUPPLY_PROP_STATUS POWER_SUPPLY_STATUS_UNKNOWN).ret
      = -EINVAL ∧
    (dummy_set_property s POWER_SUPPLY_PROP_STATUS POWER_SUPPLY_STATUS_UNKNOWN).db.status
      = s.status := by
  refine ⟨?_, ?_, ?_, rfl, rfl⟩
  · simp only [dummy_set_property]
    split_ifs with h
    · simp [h]
    · simp [h, EINVAL]
  · intro h
    simp [dummy_set_property, h]
  · intro h
    simp [dummy_set_property, h]

/-- Witness of C10: the write STATUS = Full on the start state of the coupling
scenario stores Full, and the write STATUS = 5 is rejected. -/
theorem C10_set_status_validation_witness :
    ((dummy_set_property coupling_start POWER_SUPPLY_PROP_STATUS 4).db.status = 4 ∧
      (dummy_set_property coupling_start POWER_SUPPLY_PROP_STATUS 4).db.capacity = 50 ∧
      (dummy_set_property coupling_start POWER_SUPPLY_PROP_STATUS 4).db.online_ac = false) ∧
    ((dummy_set_property coupling_start POWER_SUPPLY_PROP_STATUS 5).ret = -22 ∧
      (dummy_set_property coupling_start POWER_SUPPLY_PROP_STATUS 5).db.status = 2) :=
  ⟨(C10_set_status_validation coupling_start 4).2.1 (by decide),
   (C10_set_status_validation coupling_start 5).2.2.1 (by decide)⟩

/-! ## Theorems: oneUpPower.c -/

/-- The capacity level stored by `set_power_states` is the derived level. -/
theorem set_power_states_level (g : Globals) :
    (set_power_states g).battery.capacity_level = derived_level g.battery.capacity := by
  simp only [set_power_states, derived_level]
  split_ifs <;> rfl

/-- The status stored by `set_power_states` is the derived status. -/
theorem set_power_states_status (g : Globals) :
    (set_power_states g).battery.status
      = derived_status g.battery.capacity (decide (g.ac_online ≠ 0)) := by
  simp only [set_power_states, derived_status]
  split_ifs <;> simp_all

/-- The function `set_power_states` writes only the status and the capacity level. -/
theorem set_power_states_frame (g : Globals) :
    (set_power_states g).battery.capacity = g.battery.capacity ∧
    (set_power_states g).ac_online = g.ac_online ∧
    (set_power_states g).monitor_task = g.monitor_task ∧
    (set_power_states g).module_initialized = g.module_initialized := by
  simp only [set_power_states]
  split_ifs <;> simp

/-- The function `set_power_states` as one update: it stores the derived
status and the derived level and nothing else. -/
theorem set_power_states_eq (g : Globals) :
    set_power_states g =
      { g with battery :=
          { g.battery with
            status := derived_status g.battery.capacity (decide (g.ac_online ≠ 0))
            capacity_level := derived_level g.battery.capacity } } := by
  simp only [set_power_states, derived_status, derived_level]
  split_ifs <;> simp_all

/-- C3: for every prior state, capacity c and flag a, `set_power_states` stores
the level Full if c > 95, High if 85 < c <= 95, Normal if 40 < c <= 85, Low if
30 < c <= 40 and Critical if c <= 30, and the status Full if a is set and
c > 95, Charging if a is set and c <= 95, Discharging if a is clear; the two
results are the same from any other prior state with the same c and a, and
running it again changes nothing. -/
theorem C3_set_power_states_derivation (g g2 : Globals) (c a : Int) :
    (c > 95 → (set_power_states (with_inputs g c a)).battery.capacity_level
      = POWER_SUPPLY_CAPACITY_LEVEL_FULL) ∧
    (85 < c ∧ c ≤ 95 → (set_power_states (with_inputs g c a)).battery.capacity_level
      = POWER_SUPPLY_CAPACITY_LEVEL_HIGH) ∧
    (40 < c ∧ c ≤ 85 → (set_power_states (with_inputs g c a)).battery.capacity_level
      = POWER_SUPPLY_CAPACITY_LEVEL_NORMAL) ∧
    (30 < c ∧ c ≤ 40 → (set_power_states (with_inputs g c a)).battery.capacity_level
      = POWER_SUPPLY_CAPACITY_LEVEL_LOW) ∧
    (c ≤ 30 → (set_power_states (with_inputs g c a)).battery.capacity_level
      = POWER_SUPPLY_CAPACITY_LEVEL_CRITICAL) ∧
    (a ≠ 0 ∧ c > 95 → (set_power_states (with_inputs g c a)).battery.status
      = POWER_SUPPLY_STATUS_FULL) ∧
    (a ≠ 0 ∧ c ≤ 95 → (set_power_states (with_inputs g c a)).battery.status
      = POWER_SUPPLY_STATUS_CHARGING) ∧
    (a = 0 → (set_power_states (with_inputs g c a)).battery.status
      = POWER_SUPPLY_STATUS_DISCHARGING) ∧
    (set_power_states (with_inputs g2 c a)).battery.status
      = (set_power_states (with_inputs g c a)).battery.status ∧
    (set_power_states (with_inputs g2 c a)).battery.capacity_level
      = (set_power_states (with_inputs g c a)).battery.capacity_level ∧
    set_power_states (set_power_states (with_inputs g c a))
      = set_power_states (with_inputs g c a) := by
  refine ⟨?_, ?_, ?_, ?_, ?_, ?_, ?_, ?_, ?_, ?_, ?_⟩
  · intro h
    rw [set_power_states_level]; simp [with_inputs, derived_level, h]
  · intro h
    rw [set_power_states_level]; simp only [with_inputs, derived_level]
    split_ifs <;> first | rfl | omega
  · intro h
    rw [set_power_states_level]; simp only [with_inputs, derived_level]
    split_ifs <;> first | rfl | omega
  · intro h
    rw [set_power_states_level]; simp only [with_inputs, derived_level]
    split_ifs <;> first | rfl | omega
  · intro h
    rw [set_power_states_level]; simp only [with_inputs, derived_level]
    split_ifs <;> first | rfl | omega
  · intro h
    rw [set_power_states_status]; simp [with_inputs, derived_status, h]
  · intro h
    have h1 : ¬ c > 95 := by omega
    rw [set_power_states_status]; simp [with_inputs, derived_status, h]
  · intro h
    rw [set_power_states_status]; simp [with_inputs, derived_status, h]
  · rw [set_power_states_status, set_power_states_status]; rfl
  · rw [set_power_states_level, set_power_states_level]; rfl
  · rw [set_power_states_eq (set_power_states (with_inputs g c a))]
    rw [set_power_states_eq (with_inputs g c a)]

/-- Witness of C3 at capacity 96 with AC set (level Full, status Full) and at
capacity 30 with AC clear (level Critical, status Discharging). -/
theorem C3_set_power_states_derivation_witness :
    (set_power_states (with_inputs globals_static 96 1)).battery.capacity_level
      = POWER_SUPPLY_CAPACITY_LEVEL_FULL ∧
    (set_power_states (with_inputs globals_static 96 1)).battery.status
      = POWER_SUPPLY_STATUS_FULL ∧
    (set_power_states (with_inputs globals_static 30 0)).battery.capacity_level
      = POWER_SUPPLY_CAPACITY_LEVEL_CRITICAL ∧
    (set_power_states (with_inputs globals_static 30 0)).battery.status
      = POWER_SUPPLY_STATUS_DISCHARGING :=
  ⟨(C3_set_power_states_derivation globals_static globals_static 96 1).1 (by decide),
   (C3_set_power_states_derivation globals_static globals_static 96 1).2.2.2.2.2.1
     (by decide),
   (C3_set_power_states_derivation globals_static globals_static 30 0).2.2.2.2.1
     (by decide),
   (C3_set_power_states_derivation globals_static globals_static 30 0).2.2.2.2.2.2.2.1
     (by decide)⟩

/-- The clamp written with two `if`s in `check_battery_state` is `min (max r 0) 100`. -/
theorem soc_clamp_eq (r : Int) :
    (if (if r > 100 then 100 else r) < 0 then 0 else (if r > 100 then 100 else r))
      = min (max r 0) 100 := by
  split_ifs <;> omega

/-- The outcome of `check_battery_state` in terms of the clamped reading. -/
theorem check_battery_state_eq (r : Int) (g : Globals) :
    check_battery_state r g =
      if g.battery.capacity ≠ min (max r 0) 100 then
        ⟨set_power_states
            { g with battery := { g.battery with capacity := min (max r 0) 100 } },
         [Event.power_supply_changed ONEUP_BATTERY]⟩
      else ⟨g, []⟩ := by
  simp only [check_battery_state, soc_clamp_eq]

/-- C6: for every stored state and every integer r read from the
state-of-charge register, `check_battery_state` leaves capacity =
min(max(r,0),100). If the clamped value equals the stored capacity the whole
state is unchanged and nothing is notified; otherwise the capacity is updated,
status and level are re-derived by `set_power_states` and exactly one change
notification (for the battery) is emitted. A second poll reading the same r
changes nothing and notifies nothing, so the two polls emit at most one
notification, and exactly one when the clamped value differed at first. -/
theorem C6_check_battery_state (g : Globals) (r : Int) :
    (check_battery_state r g).g.battery.capacity = min (max r 0) 100 ∧
    (min (max r 0) 100 = g.battery.capacity →
      (check_battery_state r g).g = g ∧ (check_battery_state r g).events = []) ∧
    (min (max r 0) 100 ≠ g.battery.capacity →
      (check_battery_state r g).g
        = set_power_states
            { g with battery := { g.battery with capacity := min (max r 0) 100 } } ∧
      (check_battery_state r g).g.battery.status
        = derived_status (min (max r 0) 100) (decide (g.ac_online ≠ 0)) ∧
      (check_battery_state r g).g.battery.capacity_level
        = derived_level (min (max r 0) 100) ∧
      (check_battery_state r g).events = [Event.power_supply_changed ONEUP_BATTERY]) ∧
    (check_battery_state r (check_battery_state r g).g).g = (check_battery_state r g).g ∧
    (check_battery_state r (check_battery_state r g).g).events = [] ∧
    ((check_battery_state r g).events
        ++ (check_battery_state r (check_battery_state r g).g).events).length ≤ 1 ∧
    (min (max r 0) 100 ≠ g.battery.capacity →
      (check_battery_state r g).events
        ++ (check_battery_state r (check_battery_state r g).g).events
        = [Event.power_supply_changed ONEUP_BATTERY]) := by
  have hcap : (check_battery_state r g).g.battery.capacity = min (max r 0) 100 := by
    rw [check_battery_state_eq]
    split_ifs with h
    · exact (set_power_states_frame _).1
    · simpa using h
  have hsecond : check_battery_state r (check_battery_state r g).g
      = ⟨(check_battery_state r g).g, []⟩ := by
    rw [check_battery_state_eq r (check_battery_state r g).g]
    simp [hcap]
  refine ⟨hcap, ?_, ?_, ?_, ?_, ?_, ?_⟩
  · intro h
    rw [check_battery_state_eq]
    simp [h]
  · intro h
    have h1 : g.battery.capacity ≠ min (max r 0) 100 := fun e => h e.symm
    rw [check_battery_state_eq]
    simp only [h1, if_true, ne_eq, not_false_eq_true]
    refine ⟨trivial, ?_, ?_, trivial⟩
    · rw [set_power_states_status]
    · rw [set_power_states_level]
  · rw [hsecond]
  · rw [hsecond]
  · rw [hsecond, check_battery_state_eq]
    split_ifs <;> simp
  · intro h
    have h1 : g.battery.capacity ≠ min (max r 0) 100 := fun e => h e.symm
    rw [hsecond, check_battery_state_eq]
    simp [h1]

/-- Witness of C6: from the initialised globals (capacity 90) a read of 250 is
clamped to 100 and notified once, a read of 90 changes nothing. -/
theorem C6_check_battery_state_witness :
    ((check_battery_state 250 (oneup_power_init globals_static)).g.battery.capacity = 100 ∧
      (check_battery_state 250 (oneup_power_init globals_static)).events
        = [Event.power_supply_changed ONEUP_BATTERY]) ∧
    ((check_battery_state 90 (oneup_power_init globals_static)).g
        = oneup_power_init globals_static ∧
      (check_battery_state 90 (oneup_power_init globals_static)).events = []) :=
  ⟨⟨(C6_check_battery_state (oneup_power_init globals_static) 250).1,
    ((C6_check_battery_state (oneup_power_init globals_static) 250).2.2.1
      (by decide)).2.2.2⟩,
   (C6_check_battery_state (oneup_power_init globals_static) 90).2.1 (by decide)⟩

/-- The state left by `set_power_states` is consistent. -/
theorem consistent_set_power_states (g : Globals) : consistent (set_power_states g) := by
  unfold consistent
  rw [set_power_states_status, set_power_states_level, (set_power_states_frame g).1,
    (set_power_states_frame g).2.1]
  exact ⟨rfl, rfl⟩

/-- Initialisation leaves a consistent state, whatever the globals held before. -/
theorem consistent_oneup_power_init (g : Globals) : consistent (oneup_power_init g) := by
  have h := consistent_set_power_states { g with monitor_task := true }
  simpa [consistent, oneup_power_init] using h

/-- Each poll and the teardown keep the state consistent. -/
theorem consistent_poller_apply (g : Globals) (op : PollerOp) (h : consistent g) :
    consistent (poller_apply g op) := by
  cases op with
  | ac_poll r =>
    simp only [poller_apply, check_ac_power]
    split_ifs <;> first | exact consistent_set_power_states _ | exact h
  | battery_poll r =>
    simp only [poller_apply, check_battery_state]
    split_ifs <;> first | exact consistent_set_power_states _ | exact h
  | exit =>
    simp only [poller_apply, oneup_power_exit, consistent, derived_status]
    exact ⟨by simp, h.2⟩

/-- Consistency is kept along every sequence of polls and teardowns. -/
theorem consistent_foldl (ops : List PollerOp) (g : Globals) (h : consistent g) :
    consistent (ops.foldl poller_apply g) := by
  induction ops generalizing g with
  | nil => exact h
  | cons op rest ih => exact ih (poller_apply g op) (consistent_poller_apply g op h)

/-- C8: once `set_power_states` has run at initialisation (from any prior
globals), in every state reached by any sequence of `check_ac_power` polls,
`check_battery_state` polls and teardowns, the status is the one derived from
(capacity, ac_online) and the capacity level is the one derived from the
capacity with the thresholds 95, 85, 40 and 30. -/
theorem C8_poller_consistency (g0 : Globals) (ops : List PollerOp) :
    (poller_run g0 ops).battery.status
      = derived_status (poller_run g0 ops).battery.capacity
          (decide ((poller_run g0 ops).ac_online ≠ 0)) ∧
    (poller_run g0 ops).battery.capacity_level
      = derived_level (poller_run g0 ops).battery.capacity :=
  consistent_foldl ops (oneup_power_init g0) (consistent_oneup_power_init g0)

/-! ## Theorems: allow-list, declared properties and frame conditions -/

/-- C11: `dummy_property_is_writeable` is a function of the property alone
(it takes no device state) and is true (1) exactly for CAPACITY, ONLINE and
STATUS and 0 otherwise; for every state and property some value is accepted by
`dummy_set_property` exactly when the property is writeable, and for a
property that is not writeable every value is rejected with -EINVAL, the state
being left as it was. -/
theorem C11_writeable_allow_list (s : dummy_batt) (p : power_supply_property) :
    (dummy_property_is_writeable p = 1 ∨ dummy_property_is_writeable p = 0) ∧
    (dummy_property_is_writeable p = 1 ↔
      (p = POWER_SUPPLY_PROP_CAPACITY ∨ p = POWER_SUPPLY_PROP_ONLINE ∨
        p = POWER_SUPPLY_PROP_STATUS)) ∧
    ((∃ v, (dummy_set_property s p v).ret = 0) ↔ dummy_property_is_writeable p = 1) ∧
    (dummy_property_is_writeable p = 0 →
      ∀ v, (dummy_set_property s p v).ret = -EINVAL ∧ (dummy_set_property s p v).db = s) := by
  cases p <;>
    simp [dummy_property_is_writeable, dummy_set_property, EINVAL, ERANGE,
      POWER_SUPPLY_STATUS_CHARGING, POWER_SUPPLY_STATUS_DISCHARGING,
      POWER_SUPPLY_STATUS_NOT_CHARGING, POWER_SUPPLY_STATUS_FULL]
  · exact ⟨1, by simp⟩
  · exact ⟨0, by simp⟩

/-- Witness of C11: VOLTAGE_NOW is not writeable, so the write of 4000000 is
rejected with -EINVAL and changes nothing. -/
theorem C11_writeable_allow_list_witness :
    ∀ v, (dummy_set_property coupling_start POWER_SUPPLY_PROP_VOLTAGE_NOW v).ret = -EINVAL ∧
      (dummy_set_property coupling_start POWER_SUPPLY_PROP_VOLTAGE_NOW v).db = coupling_start :=
  (C11_writeable_allow_list coupling_start POWER_SUPPLY_PROP_VOLTAGE_NOW).2.2.2 (by decide)

/-- C12: the getters take the state as an input only (they return no state,
so no call changes it). `dummy_get_property` returns 0 exactly on the ten
entries of `dummy_props`, `get_battery_property` exactly on the eighteen
entries of `power_battery_props` and `get_ac_property` exactly on ONLINE; a
call that returns 0 stores a value, and for every other property the call
returns -EINVAL and stores nothing. -/
theorem C12_get_declared_properties (uts_release : String) (s : dummy_batt) (g : Globals)
    (p : power_supply_property) :
    dummy_props.length = 10 ∧ dummy_props.Nodup ∧
    power_battery_props.length = 18 ∧ power_battery_props.Nodup ∧
    ((dummy_get_property s p).ret = 0 ↔ p ∈ dummy_props) ∧
    (p ∈ dummy_props → (dummy_get_property s p).intval.isSome = true) ∧
    (p ∉ dummy_props → dummy_get_property s p = ⟨-EINVAL, none⟩) ∧
    ((get_battery_property uts_release g p).ret = 0 ↔ p ∈ power_battery_props) ∧
    (p ∈ power_battery_props → (get_battery_property uts_release g p).val.isSome = true) ∧
    (p ∉ power_battery_props → get_battery_property uts_release g p = ⟨-EINVAL, none⟩) ∧
    ((get_ac_property g p).ret = 0 ↔ p = POWER_SUPPLY_PROP_ONLINE) ∧
    (p = POWER_SUPPLY_PROP_ONLINE ↔ p ∈ power_ac_props) ∧
    (p = POWER_SUPPLY_PROP_ONLINE →
      get_ac_property g p = ⟨0, some (propval.intval g.ac_online)⟩) ∧
    (p ≠ POWER_SUPPLY_PROP_ONLINE → get_ac_property g p = ⟨-EINVAL, none⟩) := by
  refine ⟨rfl, by decide, rfl, by decide, ?_⟩
  cases p <;>
    simp [dummy_get_property, dummy_props, get_battery_property, get_battery_int_property,
      power_battery_props, get_ac_property, power_ac_props, EINVAL]

/-- Witness of C12: CAPACITY is read from the probed default device, and the
undeclared CURRENT_NOW is refused by the poller battery getter. -/
theorem C12_get_declared_properties_witness :
    (dummy_get_property (dummy_probe default_params)
      POWER_SUPPLY_PROP_CAPACITY).intval.isSome = true ∧
    get_battery_property ONEUP_MODEL_NAME globals_static POWER_SUPPLY_PROP_CURRENT_NOW
      = ⟨-EINVAL, none⟩ :=
  ⟨(C12_get_declared_properties ONEUP_MODEL_NAME (dummy_probe default_params) globals_static
      POWER_SUPPLY_PROP_CAPACITY).2.2.2.2.2.1 (by decide),
   (C12_get_declared_properties ONEUP_MODEL_NAME (dummy_probe default_params) globals_static
      POWER_SUPPLY_PROP_CURRENT_NOW).2.2.2.2.2.2.2.2.2.1 (by decide)⟩

/-- The first part of the tick leaves online_ac, the temperature and the
electrical values as they are. -/
theorem sim_step_frame (cr dr : Int) (s : dummy_batt) :
    (sim_step cr dr s).1.online_ac = s.online_ac ∧
    (sim_step cr dr s).1.temp_deciC = s.temp_deciC := by
  simp only [sim_step]
  split_ifs <;> simp

/-- The fields of `battery` that `set_power_states` leaves alone. -/
theorem set_power_states_battery_frame (g : Globals) :
    (set_power_states g).battery.health = g.battery.health ∧
    (set_power_states g).battery.present = g.battery.present ∧
    (set_power_states g).battery.technology = g.battery.technology ∧
    (set_power_states g).battery.timeleft = g.battery.timeleft ∧
    (set_power_states g).battery.temperature = g.battery.temperature ∧
    (set_power_states g).battery.voltage = g.battery.voltage := by
  rw [set_power_states_eq]
  exact ⟨rfl, rfl, rfl, rfl, rfl, rfl⟩

/-- The fields that `check_ac_power` leaves alone. -/
theorem check_ac_power_frame (r : Int) (g : Globals) :
    (check_ac_power r g).g.battery.health = g.battery.health ∧
    (check_ac_power r g).g.battery.present = g.battery.present ∧
    (check_ac_power r g).g.battery.technology = g.battery.technology ∧
    (check_ac_power r g).g.battery.timeleft = g.battery.timeleft ∧
    (check_ac_power r g).g.battery.temperature = g.battery.temperature ∧
    (check_ac_power r g).g.battery.voltage = g.battery.voltage ∧
    (check_ac_power r g).g.battery.capacity = g.battery.capacity := by
  simp only [check_ac_power]
  split_ifs <;>
    first
    | exact ⟨rfl, rfl, rfl, rfl, rfl, rfl, rfl⟩
    | exact ⟨(set_power_states_battery_frame _).1, (set_power_states_battery_frame _).2.1,
        (set_power_states_battery_frame _).2.2.1, (set_power_states_battery_frame _).2.2.2.1,
        (set_power_states_battery_frame _).2.2.2.2.1,
        (set_power_states_battery_frame _).2.2.2.2.2, (set_power_states_frame _).1⟩

/-- The fields that `check_battery_state` leaves alone. -/
theorem check_battery_state_frame (r : Int) (g : Globals) :
    (check_battery_state r g).g.battery.health = g.battery.health ∧
    (check_battery_state r g).g.battery.present = g.battery.present ∧
    (check_battery_state r g).g.battery.technology = g.battery.technology ∧
    (check_battery_state r g).g.battery.timeleft = g.battery.timeleft ∧
    (check_battery_state r g).g.battery.temperature = g.battery.temperature ∧
    (check_battery_state r g).g.battery.voltage = g.battery.voltage ∧
    (check_battery_state r g).g.ac_online = g.ac_online := by
  rw [check_battery_state_eq]
  split_ifs <;>
    first
    | exact ⟨rfl, rfl, rfl, rfl, rfl, rfl, rfl⟩
    | exact ⟨(set_power_states_battery_frame _).1, (set_power_states_battery_frame _).2.1,
        (set_power_states_battery_frame _).2.2.1, (set_power_states_battery_frame _).2.2.2.1,
        (set_power_states_battery_frame _).2.2.2.2.1,
        (set_power_states_battery_frame _).2.2.2.2.2, (set_power_states_frame _).2.1⟩

/-- C20: frame conditions. A tick never changes online_ac or temp_deciC. A
successful write of CAPACITY changes only capacity, a successful write of
STATUS only status, and a write of ONLINE only online_ac and status; no write
touches voltage, current or temperature. In the poller, `check_ac_power` and
`check_battery_state` never change health, present, technology, timeleft,
temperature or voltage, `check_ac_power` never changes capacity and
`check_battery_state` never changes ac_online. -/
theorem C20_frame_conditions (cr dr : Int) (s : dummy_batt) (psp : power_supply_property)
    (v : Int) (r : Int) (g : Globals) :
    ((dummy_sim_work cr dr s).db.online_ac = s.online_ac ∧
      (dummy_sim_work cr dr s).db.temp_deciC = s.temp_deciC) ∧
    ((dummy_set_property s POWER_SUPPLY_PROP_CAPACITY v).ret = 0 →
      (dummy_set_property s POWER_SUPPLY_PROP_CAPACITY v).db = { s with capacity := v }) ∧
    ((dummy_set_property s POWER_SUPPLY_PROP_STATUS v).ret = 0 →
      (dummy_set_property s POWER_SUPPLY_PROP_STATUS v).db = { s with status := v }) ∧
    ((dummy_set_property s POWER_SUPPLY_PROP_ONLINE v).ret = 0 ∧
      (dummy_set_property s POWER_SUPPLY_PROP_ONLINE v).db =
        { s with online_ac := (dummy_set_property s POWER_SUPPLY_PROP_ONLINE v).db.online_ac
                 status := (dummy_set_property s POWER_SUPPLY_PROP_ONLINE v).db.status }) ∧
    ((dummy_set_property s psp v).db.voltage_uV = s.voltage_uV ∧
      (dummy_set_property s psp v).db.current_uA = s.current_uA ∧
      (dummy_set_property s psp v).db.temp_deciC = s.temp_deciC) ∧
    ((check_ac_power r g).g.battery.health = g.battery.health ∧
      (check_ac_power r g).g.battery.present = g.battery.present ∧
      (check_ac_power r g).g.battery.technology = g.battery.technology ∧
      (check_ac_power r g).g.battery.timeleft = g.battery.timeleft ∧
      (check_ac_power r g).g.battery.temperature = g.battery.temperature ∧
      (check_ac_power r g).g.battery.voltage = g.battery.voltage ∧
      (check_ac_power r g).g.battery.capacity = g.battery.capacity) ∧
    ((check_battery_state r g).g.battery.health = g.battery.health ∧
      (check_battery_state r g).g.battery.present = g.battery.present ∧
      (check_battery_state r g).g.battery.technology = g.battery.technology ∧
      (check_battery_state r g).g.battery.timeleft = g.battery.timeleft ∧
      (check_battery_state r g).g.battery.temperature = g.battery.temperature ∧
      (check_battery_state r g).g.battery.voltage = g.battery.voltage ∧
      (check_battery_state r g).g.ac_online = g.ac_online) := by
  refine ⟨?_, ?_, ?_, ⟨rfl, rfl⟩, ?_, check_ac_power_frame r g, check_battery_state_frame r g⟩
  · simp only [dummy_sim_work, (sim_electrical_frame _).2.2.1, (sim_electrical_frame _).2.2.2]
    exact sim_step_frame cr dr s
  · simp only [dummy_set_property]
    split_ifs <;> simp [ERANGE]
  · simp only [dummy_set_property]
    split_ifs <;> simp [EINVAL]
  · have h := dummy_set_property_electrical_frame s psp v
    exact ⟨h.2.1, h.1, h.2.2⟩

/-- Witness of C20: the accepted write CAPACITY = 96 on the start state of the
coupling scenario changes the capacity and nothing else. -/
theorem C20_frame_conditions_witness :
    (dummy_set_property coupling_start POWER_SUPPLY_PROP_CAPACITY 96).db
      = { coupling_start with capacity := 96 } :=
  (C20_frame_conditions 2 1 coupling_start POWER_SUPPLY_PROP_CAPACITY 96 0
    globals_static).2.1 (by decide)

/-! ## Theorems: AC detection and teardown order -/

/-- A natural number whose only possibly set bit is bit 7 is 128 or 0. -/
theorem nat_of_bit7 (x : Nat) (b : Bool)
    (h : ∀ i, x.testBit i = (decide (i = 7) && b)) : x = if b then 128 else 0 := by
  apply Nat.eq_of_testBit_eq
  intro i
  rw [h i]
  cases b
  · simp
  · have e : (128 : Nat) = 2 ^ 7 := by norm_num
    simp only [if_true, Bool.and_true, e, Nat.testBit_two_pow]
    by_cases hi : i = 7 <;> simp [hi, eq_comm]

/-- Bit 7 of a two's-complement integer, by floor division. -/
theorem int_testBit7 (r : Int) : r.testBit 7 = decide (r / 128 % 2 = 1) := by
  have e : (2 : Nat) ^ 7 = 128 := by norm_num
  cases r with
  | ofNat m =>
    simp only [Int.testBit, Nat.testBit_to_div_mod, e]
    congr 1
    apply propext
    simp only [Int.ofNat_eq_coe]
    omega
  | negSucc m =>
    simp only [Int.testBit, Nat.testBit_to_div_mod, e]
    have e2 : (Int.negSucc m / 128 % 2 = 1) ↔ ¬ (m / 128 % 2 = 1) := by
      rw [Int.negSucc_eq]
      omega
    simp only [e2]
    by_cases hm : m / 128 % 2 = 1 <;> simp [hm]

/-- The arithmetic form `and_0x80` is the bitwise and with 0x80. -/
theorem and_0x80_eq_land (r : Int) : and_0x80 r = Int.land r 128 := by
  have key : ∀ k : Nat, (∀ i, k.testBit i = (decide (i = 7) && r.testBit 7)) →
      and_0x80 r = (k : Int) := by
    intro k hk
    rw [nat_of_bit7 k _ hk, int_testBit7]
    unfold and_0x80
    by_cases h : r / 128 % 2 = 1
    · simp [h]
    · have h0 : r / 128 % 2 = 0 := by omega
      simp [h0]
  have tb : ∀ i, (Int.land r 128).testBit i = (decide (i = 7) && r.testBit 7) := by
    intro i
    rw [Int.testBit_land]
    have h128 : ((128 : Int)).testBit i = decide (i = 7) := by
      show Nat.testBit 128 i = _
      have e : (128 : Nat) = 2 ^ 7 := by norm_num
      rw [e, Nat.testBit_two_pow]
      by_cases hi : i = 7 <;> simp [hi, eq_comm]
    rw [h128]
    by_cases hi : i = 7
    · subst hi; simp
    · simp [hi]
  cases hl : Int.land r 128 with
  | ofNat k =>
    apply key
    intro i
    have ht := tb i
    rw [hl] at ht
    exact ht
  | negSucc k =>
    exfalso
    have h1 := tb (k + 8)
    rw [hl] at h1
    have h2 : k.testBit (k + 8) = false :=
      Nat.testBit_lt_two_pow (lt_of_lt_of_le (Nat.lt_two_pow k)
        (Nat.pow_le_pow_right (by norm_num) (Nat.le_add_right k 8)))
    simp [Int.testBit, h2] at h1

/-- The test `(x & 0x80) > 0` of `check_ac_power` holds exactly when bit 7 is set. -/
theorem and_0x80_pos_iff (r : Int) : and_0x80 r > 0 ↔ r.testBit 7 = true := by
  rw [int_testBit7]
  unfold and_0x80
  simp only [decide_eq_true_eq]
  omega

/-- C17: for every stored state and every integer r read from the current
register, `check_ac_power` decodes plugged_in = 0 when bit 7 of r is set
(r & 0x80 is non-zero) and plugged_in = 1 when it is clear. When plugged_in
differs from the stored ac_online, ac_online becomes plugged_in and the status
is re-derived by `set_power_states`; otherwise the state is unchanged. No
change notification is emitted in either case and the capacity is never
modified. -/
theorem C17_check_ac_power (g : Globals) (r : Int) :
    (r.testBit 7 = true ↔ Int.land r 128 ≠ 0) ∧
    (r.testBit 7 = true →
      (g.ac_online ≠ 0 →
        (check_ac_power r g).g = set_power_states { g with ac_online := 0 } ∧
        (check_ac_power r g).g.ac_online = 0 ∧
        (check_ac_power r g).g.battery.status = POWER_SUPPLY_STATUS_DISCHARGING) ∧
      (g.ac_online = 0 → (check_ac_power r g).g = g)) ∧
    (r.testBit 7 = false →
      (g.ac_online ≠ 1 →
        (check_ac_power r g).g = set_power_states { g with ac_online := 1 } ∧
        (check_ac_power r g).g.ac_online = 1 ∧
        (check_ac_power r g).g.battery.status = derived_status g.battery.capacity true) ∧
      (g.ac_online = 1 → (check_ac_power r g).g = g)) ∧
    (check_ac_power r g).events = [] ∧
    (check_ac_power r g).g.battery.capacity = g.battery.capacity := by
  refine ⟨?_, ?_, ?_, ?_, (check_ac_power_frame r g).2.2.2.2.2.2⟩
  · rw [← and_0x80_pos_iff, and_0x80_eq_land]
    have h := and_0x80_eq_land r
    unfold and_0x80 at h
    constructor
    · intro hp; omega
    · intro hn; omega
  · intro hb
    have hp : and_0x80 r > 0 := (and_0x80_pos_iff r).2 hb
    constructor
    · intro hne
      have e : (check_ac_power r g).g = set_power_states { g with ac_online := 0 } := by
        simp [check_ac_power, hp, hne]
      refine ⟨e, ?_, ?_⟩
      · rw [e, (set_power_states_frame _).2.1]
      · rw [e, set_power_states_status]
        simp [derived_status]
    · intro he
      simp [check_ac_power, hp, he]
  · intro hb
    have hp : ¬ and_0x80 r > 0 := by
      rw [and_0x80_pos_iff, hb]
      simp
    constructor
    · intro hne
      have e : (check_ac_power r g).g = set_power_states { g with ac_online := 1 } := by
        simp [check_ac_power, hp, hne]
      refine ⟨e, ?_, ?_⟩
      · rw [e, (set_power_states_frame _).2.1]
      · rw [e, set_power_states_status]
        simp
    · intro he
      simp [check_ac_power, hp, he]
  · simp only [check_ac_power]
    split_ifs <;> rfl

/-- Witness of C17: on the initialised globals (AC online, capacity 90) a
reading of 0x80 unplugs and gives Discharging, and the error code -5, whose
bit 7 is set, does the same. -/
theorem C17_check_ac_power_witness :
    ((check_ac_power 128 (oneup_power_init globals_static)).g.ac_online = 0 ∧
      (check_ac_power 128 (oneup_power_init globals_static)).g.battery.status
        = POWER_SUPPLY_STATUS_DISCHARGING) ∧
    ((check_ac_power (-5) (oneup_power_init globals_static)).g.ac_online = 0 ∧
      (check_ac_power (-5) (oneup_power_init globals_static)).g.battery.status
        = POWER_SUPPLY_STATUS_DISCHARGING) :=
  ⟨(((C17_check_ac_power (oneup_power_init globals_static) 128).2.1 (by decide)).1
      (by decide)).2,
   (((C17_check_ac_power (oneup_power_init globals_static) (-5)).2.1 (by decide)).1
      (by decide)).2⟩

/-- C13, as the claim states it, fails: with the monitor task running,
`oneup_power_exit` requests the stop of the monitor task first and emits both
change notifications after it. -/
theorem C13_counterexample :
    (oneup_power_init globals_static).monitor_task = true ∧
    (oneup_power_exit (oneup_power_init globals_static)).events
      = [Event.kthread_stop, Event.power_supply_changed ONEUP_BATTERY,
         Event.power_supply_changed ONEUP_AC, Event.ssleep 10,
         Event.power_supply_unregister ONEUP_BATTERY,
         Event.power_supply_unregister ONEUP_AC] ∧
    changed_after_stop (oneup_power_exit (oneup_power_init globals_static)).events = true := by
  decide

/-- C13 (amended): for every prior state `oneup_power_exit` first requests
the stop of the monitor task when one is running, then leaves ac_online = 0
and status = Discharging and emits one change notification per registered
supply (battery, then AC), then sleeps 10 seconds and unregisters the two
supplies. When a monitor task was running, both change notifications come
after the stop (stop-then-notify order). -/
theorem C13_teardown_stop_then_notify (g : Globals) :
    (oneup_power_exit g).g.ac_online = 0 ∧
    (oneup_power_exit g).g.battery.status = POWER_SUPPLY_STATUS_DISCHARGING ∧
    (oneup_power_exit g).g.monitor_task = false ∧
    (oneup_power_exit g).g.module_initialized = false ∧
    (oneup_power_exit g).events
      = (if g.monitor_task then [Event.kthread_stop] else []) ++
        [Event.power_supply_changed ONEUP_BATTERY, Event.power_supply_changed ONEUP_AC,
         Event.ssleep 10, Event.power_supply_unregister ONEUP_BATTERY,
         Event.power_supply_unregister ONEUP_AC] ∧
    ((oneup_power_exit g).events.filter is_changed).length = ONEUP_POWER_NUM ∧
    (g.monitor_task = true →
      (oneup_power_exit g).events.head? = some Event.kthread_stop ∧
      changed_after_stop (oneup_power_exit g).events = true) ∧
    (g.monitor_task = false → changed_after_stop (oneup_power_exit g).events = false) := by
  cases hm : g.monitor_task <;> simp [oneup_power_exit, hm] <;> decide

/-- Witness of the amended C13 on the initialised globals, whose monitor task
is running. -/
theorem C13_teardown_stop_then_notify_witness :
    (oneup_power_exit (oneup_power_init globals_static)).events.head?
      = some Event.kthread_stop ∧
    changed_after_stop (oneup_power_exit (oneup_power_init globals_static)).events = true :=
  (C13_teardown_stop_then_notify (oneup_power_init globals_static)).2.2.2.2.2.2.1
    (by decide)

/-! ## Theorems: the tick of dummy_battery.c -/

/-- A value in the range of a 32-bit `int` is left alone by `wrap32`. -/
theorem wrap32_of_range (x : Int) (h : -2147483648 ≤ x ∧ x ≤ 2147483647) : wrap32 x = x := by
  unfold wrap32
  omega

/-- Capacity and status after a tick are the ones of its first part. -/
theorem dummy_sim_work_step (cr dr : Int) (s : dummy_batt) :
    (dummy_sim_work cr dr s).db.capacity = (sim_step cr dr s).1.capacity ∧
    (dummy_sim_work cr dr s).db.status = (sim_step cr dr s).1.status ∧
    (dummy_sim_work cr dr s).notified = if (sim_step cr dr s).2 then 1 else 0 := by
  simp only [dummy_sim_work, (sim_electrical_frame _).1, (sim_electrical_frame _).2.1]
  exact ⟨trivial, trivial, trivial⟩

/-- C14: the step function of the tick, for rates where capacity + charge_rate
(or capacity - discharge_rate) does not overflow a 32-bit int. If the status is
Charging and capacity c < 100, the new capacity is min(c + charge_rate, 100)
and the new status is Full when c + charge_rate >= 100 and Charging otherwise.
Else if the status is Discharging and c > 0, the new capacity is
max(c - discharge_rate, 0) and the new status is NotCharging when
c - discharge_rate <= 0 and Discharging otherwise. In every other case
capacity and status are unchanged. -/
theorem C14_tick_step_function (cr dr : Int) (s : dummy_batt) :
    (s.status = POWER_SUPPLY_STATUS_CHARGING ∧ s.capacity < 100 →
      -2147483648 ≤ s.capacity + cr ∧ s.capacity + cr ≤ 2147483647 →
      (dummy_sim_work cr dr s).db.capacity = min (s.capacity + cr) 100 ∧
      (s.capacity + cr ≥ 100 →
        (dummy_sim_work cr dr s).db.status = POWER_SUPPLY_STATUS_FULL) ∧
      (s.capacity + cr < 100 →
        (dummy_sim_work cr dr s).db.status = POWER_SUPPLY_STATUS_CHARGING)) ∧
    (¬ (s.status = POWER_SUPPLY_STATUS_CHARGING ∧ s.capacity < 100) →
      s.status = POWER_SUPPLY_STATUS_DISCHARGING ∧ s.capacity > 0 →
      -2147483648 ≤ s.capacity - dr ∧ s.capacity - dr ≤ 2147483647 →
      (dummy_sim_work cr dr s).db.capacity = max (s.capacity - dr) 0 ∧
      (s.capacity - dr ≤ 0 →
        (dummy_sim_work cr dr s).db.status = POWER_SUPPLY_STATUS_NOT_CHARGING) ∧
      (s.capacity - dr > 0 →
        (dummy_sim_work cr dr s).db.status = POWER_SUPPLY_STATUS_DISCHARGING)) ∧
    (¬ (s.status = POWER_SUPPLY_STATUS_CHARGING ∧ s.capacity < 100) →
      ¬ (s.status = POWER_SUPPLY_STATUS_DISCHARGING ∧ s.capacity > 0) →
      (dummy_sim_work cr dr s).db.capacity = s.capacity ∧
      (dummy_sim_work cr dr s).db.status = s.status ∧
      (dummy_sim_work cr dr s).notified = 0) := by
  refine ⟨?_, ?_, ?_⟩
  · intro hc hr
    rw [(dummy_sim_work_step cr dr s).1, (dummy_sim_work_step cr dr s).2.1]
    by_cases h : s.capacity + cr ≥ 100
    · have e : sim_step cr dr s
          = ({ s with capacity := 100, status := POWER_SUPPLY_STATUS_FULL }, true) := by
        simp [sim_step, hc, wrap32_of_range _ hr, h]
      rw [e]
      exact ⟨by simp only []; omega, fun _ => rfl, fun h2 => by omega⟩
    · have e : sim_step cr dr s = ({ s with capacity := s.capacity + cr }, true) := by
        simp [sim_step, hc, wrap32_of_range _ hr, h]
      rw [e]
      exact ⟨by simp only []; omega, fun h2 => absurd h2 h, fun _ => hc.1⟩
  · intro hnc hd hr
    rw [(dummy_sim_work_step cr dr s).1, (dummy_sim_work_step cr dr s).2.1]
    by_cases h : s.capacity - dr ≤ 0
    · have e : sim_step cr dr s
          = ({ s with capacity := 0, status := POWER_SUPPLY_STATUS_NOT_CHARGING }, true) := by
        simp only [sim_step, if_neg hnc, if_pos hd, wrap32_of_range _ hr, if_pos h]
      rw [e]
      exact ⟨by simp only []; omega, fun _ => rfl, fun h2 => by omega⟩
    · have e : sim_step cr dr s = ({ s with capacity := s.capacity - dr }, true) := by
        simp only [sim_step, if_neg hnc, if_pos hd, wrap32_of_range _ hr, if_neg h]
      rw [e]
      exact ⟨by simp only []; omega, fun h2 => absurd h2 h, fun _ => hd.1⟩
  · intro hnc hnd
    rw [(dummy_sim_work_step cr dr s).1, (dummy_sim_work_step cr dr s).2.1,
      (dummy_sim_work_step cr dr s).2.2]
    simp [sim_step, if_neg hnc, if_neg hnd]

/-- Witness of C14: the charging device at 99 with charge_rate 2 becomes Full
at 100, and the discharging device at 50 with discharge_rate 1 goes to 49. -/
theorem C14_tick_step_function_witness :
    ((dummy_sim_work 2 1 almost_full).db.capacity = min (almost_full.capacity + 2) 100 ∧
      (almost_full.capacity + 2 ≥ 100 →
        (dummy_sim_work 2 1 almost_full).db.status = POWER_SUPPLY_STATUS_FULL) ∧
      (almost_full.capacity + 2 < 100 →
        (dummy_sim_work 2 1 almost_full).db.status = POWER_SUPPLY_STATUS_CHARGING)) ∧
    ((dummy_sim_work 2 1 coupling_start).db.capacity = max (coupling_start.capacity - 1) 0 ∧
      (coupling_start.capacity - 1 ≤ 0 →
        (dummy_sim_work 2 1 coupling_start).db.status = POWER_SUPPLY_STATUS_NOT_CHARGING) ∧
      (coupling_start.capacity - 1 > 0 →
        (dummy_sim_work 2 1 coupling_start).db.status = POWER_SUPPLY_STATUS_DISCHARGING)) :=
  ⟨(C14_tick_step_function 2 1 almost_full).1 (by decide) (by decide),
   (C14_tick_step_function 2 1 coupling_start).2.1 (by decide) (by decide) (by decide)⟩

/-- A tick notifies exactly when one of its two branches is taken, and it
does so whenever the capacity or the status after the tick differs from the
value before. -/
theorem dummy_sim_work_notifies_when_changed (cr dr : Int) (s : dummy_batt) :
    ((dummy_sim_work cr dr s).notified = 1 ∨ (dummy_sim_work cr dr s).notified = 0) ∧
    ((dummy_sim_work cr dr s).notified = 1 ↔
      ((s.status = POWER_SUPPLY_STATUS_CHARGING ∧ s.capacity < 100) ∨
        (s.status = POWER_SUPPLY_STATUS_DISCHARGING ∧ s.capacity > 0))) ∧
    ((dummy_sim_work cr dr s).db.capacity ≠ s.capacity ∨
        (dummy_sim_work cr dr s).db.status ≠ s.status →
      (dummy_sim_work cr dr s).notified = 1) := by
  rw [(dummy_sim_work_step cr dr s).1, (dummy_sim_work_step cr dr s).2.1,
    (dummy_sim_work_step cr dr s).2.2]
  simp only [sim_step]
  split_ifs <;> simp_all

/-- C15: the tick notifies although nothing changed when the rate is zero.
With start_charging and charge_rate=0 the probed state is Charging at
capacity 75; after one tick the capacity is 75 and the status Charging, as
before, and one change notification has been emitted. -/
theorem C15_tick_notifies_without_change :
    (dummy_probe zero_rate_params).capacity = 75 ∧
    (dummy_probe zero_rate_params).status = POWER_SUPPLY_STATUS_CHARGING ∧
    (dummy_sim_work zero_rate_params.charge_rate zero_rate_params.discharge_rate
      (dummy_probe zero_rate_params)).db.capacity = 75 ∧
    (dummy_sim_work zero_rate_params.charge_rate zero_rate_params.discharge_rate
      (dummy_probe zero_rate_params)).db.status = POWER_SUPPLY_STATUS_CHARGING ∧
    (dummy_sim_work zero_rate_params.charge_rate zero_rate_params.discharge_rate
      (dummy_probe zero_rate_params)).notified = 1 := by
  decide

/-- C16: after every tick the voltage is the `int` expression
3500000 + capacity * 7000 of the post-tick capacity, and whenever that
capacity is in [0,100] neither the product nor the sum overflows, so the
voltage is exactly 3,500,000 + 7,000 * capacity: 3,500,000 at 0, 4,200,000 at
100, within [3,500,000, 4,200,000] and strictly increasing in the capacity
(the formula is exact for every capacity from -306,783 to 306,283).
The current is +80,000 if the post-tick status is Charging, -50,000 if it is
Discharging and 0 for every other status. -/
theorem C16_electrical_after_tick (cr dr cr2 dr2 : Int) (s s2 : dummy_batt) :
    (dummy_sim_work cr dr s).db.voltage_uV
      = wrap32 (3500000 + wrap32 ((dummy_sim_work cr dr s).db.capacity * 7000)) ∧
    (0 ≤ (dummy_sim_work cr dr s).db.capacity ∧ (dummy_sim_work cr dr s).db.capacity ≤ 100 →
      wrap32 ((dummy_sim_work cr dr s).db.capacity * 7000)
        = (dummy_sim_work cr dr s).db.capacity * 7000 ∧
      (dummy_sim_work cr dr s).db.voltage_uV
        = 3500000 + 7000 * (dummy_sim_work cr dr s).db.capacity ∧
      3500000 ≤ (dummy_sim_work cr dr s).db.voltage_uV ∧
      (dummy_sim_work cr dr s).db.voltage_uV ≤ 4200000) ∧
    (-306783 ≤ (dummy_sim_work cr dr s).db.capacity ∧
        (dummy_sim_work cr dr s).db.capacity ≤ 306283 →
      (dummy_sim_work cr dr s).db.voltage_uV
        = 3500000 + 7000 * (dummy_sim_work cr dr s).db.capacity) ∧
    ((dummy_sim_work cr dr s).db.capacity = 0 →
      (dummy_sim_work cr dr s).db.voltage_uV = 3500000) ∧
    ((dummy_sim_work cr dr s).db.capacity = 100 →
      (dummy_sim_work cr dr s).db.voltage_uV = 4200000) ∧
    (0 ≤ (dummy_sim_work cr dr s).db.capacity →
      (dummy_sim_work cr dr s).db.capacity < (dummy_sim_work cr2 dr2 s2).db.capacity →
      (dummy_sim_work cr2 dr2 s2).db.capacity ≤ 100 →
      (dummy_sim_work cr dr s).db.voltage_uV < (dummy_sim_work cr2 dr2 s2).db.voltage_uV) ∧
    ((dummy_sim_work cr dr s).db.status = POWER_SUPPLY_STATUS_CHARGING →
      (dummy_sim_work cr dr s).db.current_uA = 80000) ∧
    ((dummy_sim_work cr dr s).db.status = POWER_SUPPLY_STATUS_DISCHARGING →
      (dummy_sim_work cr dr s).db.current_uA = -50000) ∧
    ((dummy_sim_work cr dr s).db.status ≠ POWER_SUPPLY_STATUS_CHARGING ∧
        (dummy_sim_work cr dr s).db.status ≠ POWER_SUPPLY_STATUS_DISCHARGING →
      (dummy_sim_work cr dr s).db.current_uA = 0) := by
  have volt : ∀ (c d : Int) (t : dummy_batt),
      (dummy_sim_work c d t).db.voltage_uV
        = wrap32 (3500000 + wrap32 ((dummy_sim_work c d t).db.capacity * 7000)) := by
    intro c d t
    simp only [dummy_sim_work, (sim_electrical_frame _).1]
    simp only [sim_electrical]
    split_ifs <;> rfl
  have cur : (dummy_sim_work cr dr s).db.current_uA =
      if (dummy_sim_work cr dr s).db.status = POWER_SUPPLY_STATUS_CHARGING then 80000
      else if (dummy_sim_work cr dr s).db.status = POWER_SUPPLY_STATUS_DISCHARGING
        then -50000 else 0 := by
    simp only [dummy_sim_work, sim_electrical_current, (sim_electrical_frame _).2.1]
  have exact_volt : ∀ (c d : Int) (t : dummy_batt),
      -306783 ≤ (dummy_sim_work c d t).db.capacity ∧
        (dummy_sim_work c d t).db.capacity ≤ 306283 →
      wrap32 ((dummy_sim_work c d t).db.capacity * 7000)
        = (dummy_sim_work c d t).db.capacity * 7000 ∧
      (dummy_sim_work c d t).db.voltage_uV
        = 3500000 + 7000 * (dummy_sim_work c d t).db.capacity := by
    intro c d t h
    have e1 : wrap32 ((dummy_sim_work c d t).db.capacity * 7000)
        = (dummy_sim_work c d t).db.capacity * 7000 :=
      wrap32_of_range _ (by omega)
    refine ⟨e1, ?_⟩
    rw [volt c d t, e1, wrap32_of_range _ (by omega)]
    omega
  refine ⟨volt cr dr s, ?_, ?_, ?_, ?_, ?_, ?_, ?_, ?_⟩
  · intro h
    have e := exact_volt cr dr s (by omega)
    exact ⟨e.1, e.2, by omega, by omega⟩
  · intro h
    exact (exact_volt cr dr s h).2
  · intro h
    have e := exact_volt cr dr s (by omega)
    omega
  · intro h
    have e := exact_volt cr dr s (by omega)
    omega
  · intro h0 hlt h100
    have e := exact_volt cr dr s (by omega)
    have e2 := exact_volt cr2 dr2 s2 (by omega)
    omega
  · intro h
    rw [cur, if_pos h]
  · intro h
    have h1 : (dummy_sim_work cr dr s).db.status ≠ POWER_SUPPLY_STATUS_CHARGING := by
      rw [h]; decide
    rw [cur, if_neg h1, if_pos h]
  · intro h
    rw [cur, if_neg h.1, if_neg h.2]

/-- Witness of C16: one tick of the probed default device (Discharging, 75 to
74 percent) gives 3,500,000 + 7,000 * 74 microvolts. -/
theorem C16_electrical_after_tick_witness :
    wrap32 ((dummy_sim_work 2 1 (dummy_probe default_params)).db.capacity * 7000)
      = (dummy_sim_work 2 1 (dummy_probe default_params)).db.capacity * 7000 ∧
    (dummy_sim_work 2 1 (dummy_probe default_params)).db.voltage_uV
      = 3500000 + 7000 * (dummy_sim_work 2 1 (dummy_probe default_params)).db.capacity ∧
    3500000 ≤ (dummy_sim_work 2 1 (dummy_probe default_params)).db.voltage_uV ∧
    (dummy_sim_work 2 1 (dummy_probe default_params)).db.voltage_uV ≤ 4200000 :=
  (C16_electrical_after_tick 2 1 2 1 (dummy_probe default_params)
    (dummy_probe default_params)).2.1 (by decide)

/-! ## Theorems: charge and time-to-full arithmetic -/

/-- No poll and no teardown changes `timeleft`. -/
theorem poller_apply_timeleft (g : Globals) (op : PollerOp) :
    (poller_apply g op).battery.timeleft = g.battery.timeleft := by
  cases op with
  | ac_poll r => exact (check_ac_power_frame r g).2.2.2.1
  | battery_poll r => exact (check_battery_state_frame r g).2.2.2.1
  | exit => rfl

/-- Along every run of the poller `timeleft` keeps the value it had before
initialisation. -/
theorem poller_run_timeleft (g0 : Globals) (ops : List PollerOp) :
    (poller_run g0 ops).battery.timeleft = g0.battery.timeleft := by
  have step : ∀ (l : List PollerOp) (g : Globals),
      (l.foldl poller_apply g).battery.timeleft = g.battery.timeleft := by
    intro l
    induction l with
    | nil => intro g; rfl
    | cons op rest ih =>
      intro g
      rw [List.foldl_cons, ih, poller_apply_timeleft]
  rw [poller_run, step]
  simp only [oneup_power_init]
  exact (set_power_states_battery_frame _).2.2.2.1

/-- C18: for every capacity c in [0,100] the poller battery getter returns
CHARGE_NOW = c * 4,800,000 / 100 = 48,000 * c and TIME_TO_FULL_NOW =
(100 - c) * 3,600 / 100 = 36 * (100 - c), every intermediate product fitting
in a signed 32-bit int. CHARGE_NOW is non-decreasing in c, lies in
[0, CHARGE_FULL] and equals CHARGE_FULL at c = 100; TIME_TO_FULL_NOW is 0 at
c = 100 and 3,600 at c = 0; TIME_TO_EMPTY_AVG is 10,800 in every state reached
from the static initialisers. The getter of test_power.c gives the same
formulas with the full-charge constant 2,000,000. -/
theorem C18_charge_arithmetic (uts_release : String) (g g2 : Globals) (t : TestPower.Globals)
    (ops : List PollerOp) :
    (0 ≤ g.battery.capacity ∧ g.battery.capacity ≤ 100 →
      get_battery_property uts_release g POWER_SUPPLY_PROP_CHARGE_NOW
        = ⟨0, some (propval.intval (48000 * g.battery.capacity))⟩ ∧
      g.battery.capacity * 4800000 / 100 = 48000 * g.battery.capacity ∧
      get_battery_property uts_release g POWER_SUPPLY_PROP_TIME_TO_FULL_NOW
        = ⟨0, some (propval.intval (36 * (100 - g.battery.capacity)))⟩ ∧
      (100 - g.battery.capacity) * 3600 / 100 = 36 * (100 - g.battery.capacity) ∧
      (0 ≤ g.battery.capacity * TOTAL_CHARGE ∧
        g.battery.capacity * TOTAL_CHARGE ≤ 2147483647) ∧
      (0 ≤ (100 - g.battery.capacity) * TOTAL_CHARGE_FULL_SECONDS ∧
        (100 - g.battery.capacity) * TOTAL_CHARGE_FULL_SECONDS ≤ 2147483647) ∧
      0 ≤ 48000 * g.battery.capacity ∧ 48000 * g.battery.capacity ≤ TOTAL_CHARGE) ∧
    (0 ≤ g.battery.capacity ∧ g.battery.capacity ≤ g2.battery.capacity ∧
        g2.battery.capacity ≤ 100 →
      ∃ v v2 : Int,
        get_battery_property uts_release g POWER_SUPPLY_PROP_CHARGE_NOW
          = ⟨0, some (propval.intval v)⟩ ∧
        get_battery_property uts_release g2 POWER_SUPPLY_PROP_CHARGE_NOW
          = ⟨0, some (propval.intval v2)⟩ ∧ v ≤ v2) ∧
    get_battery_property uts_release g POWER_SUPPLY_PROP_CHARGE_FULL
      = ⟨0, some (propval.intval 4800000)⟩ ∧
    (g.battery.capacity = 100 →
      get_battery_property uts_release g POWER_SUPPLY_PROP_CHARGE_NOW
        = get_battery_property uts_release g POWER_SUPPLY_PROP_CHARGE_FULL ∧
      get_battery_property uts_release g POWER_SUPPLY_PROP_TIME_TO_FULL_NOW
        = ⟨0, some (propval.intval 0)⟩) ∧
    (g.battery.capacity = 0 →
      get_battery_property uts_release g POWER_SUPPLY_PROP_TIME_TO_FULL_NOW
        = ⟨0, some (propval.intval 3600)⟩) ∧
    get_battery_property uts_release (poller_run globals_static ops)
        POWER_SUPPLY_PROP_TIME_TO_EMPTY_AVG
      = ⟨0, some (propval.intval 10800)⟩ ∧
    (0 ≤ t.battery_capacity ∧ t.battery_capacity ≤ 100 →
      TestPower.test_power_get_battery_property uts_release t POWER_SUPPLY_PROP_CHARGE_NOW
        = ⟨0, some (propval.intval (20000 * t.battery_capacity))⟩ ∧
      t.battery_capacity * 2000000 / 100 = 20000 * t.battery_capacity ∧
      TestPower.test_power_get_battery_property uts_release t
          POWER_SUPPLY_PROP_TIME_TO_FULL_NOW
        = ⟨0, some (propval.intval (36 * (100 - t.battery_capacity)))⟩) := by
  have charge : ∀ (k c : Int), 0 ≤ c ∧ c ≤ 100 → 0 ≤ k ∧ k ≤ 48000 →
      Int.tdiv (wrap32 (c * (k * 100))) 100 = k * c := by
    intro k c hc hk
    have h1 : 0 ≤ k * c := mul_nonneg hk.1 hc.1
    have h2 : k * c ≤ 48000 * 100 :=
      mul_le_mul hk.2 hc.2 hc.1 (by norm_num)
    have e : c * (k * 100) = k * c * 100 := by ring
    rw [e, wrap32_of_range _ (by omega), Int.tdiv_eq_ediv (by omega) (by norm_num)]
    omega
  have now : ∀ c : Int, 0 ≤ c ∧ c ≤ 100 →
      Int.tdiv (wrap32 (c * TOTAL_CHARGE)) 100 = 48000 * c := by
    intro c hc
    have e : TOTAL_CHARGE = 48000 * 100 := by decide
    rw [e]
    exact charge 48000 c hc (by norm_num)
  have full : ∀ c : Int, 0 ≤ c ∧ c ≤ 100 →
      Int.tdiv (wrap32 (wrap32 (100 - c) * TOTAL_CHARGE_FULL_SECONDS)) 100
        = 36 * (100 - c) := by
    intro c hc
    have e : TOTAL_CHARGE_FULL_SECONDS = 36 * 100 := by decide
    rw [wrap32_of_range (100 - c) (by omega), e]
    exact charge 36 (100 - c) (by omega) (by norm_num)
  have tnow : ∀ c : Int, 0 ≤ c ∧ c ≤ 100 →
      Int.tdiv (wrap32 (c * TestPower.TOTAL_CHARGE)) 100 = 20000 * c := by
    intro c hc
    have e : TestPower.TOTAL_CHARGE = 20000 * 100 := by decide
    rw [e]
    exact charge 20000 c hc (by norm_num)
  have tfull : ∀ c : Int, 0 ≤ c ∧ c ≤ 100 →
      Int.tdiv (wrap32 (wrap32 (100 - c) * TestPower.TOTAL_CHARGE_FULL_SECONDS)) 100
        = 36 * (100 - c) := by
    intro c hc
    have e : TestPower.TOTAL_CHARGE_FULL_SECONDS = 36 * 100 := by decide
    rw [wrap32_of_range (100 - c) (by omega), e]
    exact charge 36 (100 - c) (by omega) (by norm_num)
  have get_now : ∀ h : Globals, 0 ≤ h.battery.capacity ∧ h.battery.capacity ≤ 100 →
      get_battery_property uts_release h POWER_SUPPLY_PROP_CHARGE_NOW
        = ⟨0, some (propval.intval (48000 * h.battery.capacity))⟩ := by
    intro h hc
    simp only [get_battery_property, get_battery_int_property, now _ hc]
  have get_full : ∀ h : Globals, 0 ≤ h.battery.capacity ∧ h.battery.capacity ≤ 100 →
      get_battery_property uts_release h POWER_SUPPLY_PROP_TIME_TO_FULL_NOW
        = ⟨0, some (propval.intval (36 * (100 - h.battery.capacity)))⟩ := by
    intro h hc
    simp only [get_battery_property, get_battery_int_property, full _ hc]
  have hT : TOTAL_CHARGE = 4800000 := by decide
  have hS : TOTAL_CHARGE_FULL_SECONDS = 3600 := by decide
  refine ⟨?_, ?_, ?_, ?_, ?_, ?_, ?_⟩
  · intro hc
    rw [hT, hS]
    exact ⟨get_now g hc, by omega, get_full g hc, by omega, by omega, by omega, by omega,
      by omega⟩
  · intro hc
    exact ⟨48000 * g.battery.capacity, 48000 * g2.battery.capacity,
      get_now g (by omega), get_now g2 (by omega), by omega⟩
  · simp only [get_battery_property, get_battery_int_property, hT]
  · intro hc
    rw [get_now g (by omega), get_full g (by omega), hc]
    simp only [get_battery_property, get_battery_int_property, hT]
    exact ⟨by norm_num, by norm_num⟩
  · intro hc
    rw [get_full g (by omega), hc]
    norm_num
  · have e := poller_run_timeleft globals_static ops
    simp only [get_battery_property, get_battery_int_property, e]
    rfl
  · intro hc
    refine ⟨?_, by omega, ?_⟩
    · simp only [TestPower.test_power_get_battery_property, tnow _ hc]
    · simp only [TestPower.test_power_get_battery_property, tfull _ hc]

/-- Witness of C18 on the static globals of the two drivers (capacity 90 and 80). -/
theorem C18_charge_arithmetic_witness :
    get_battery_property ONEUP_MODEL_NAME globals_static POWER_SUPPLY_PROP_CHARGE_NOW
      = ⟨0, some (propval.intval (48000 * 90))⟩ ∧
    TestPower.test_power_get_battery_property ONEUP_MODEL_NAME TestPower.globals_static
        POWER_SUPPLY_PROP_CHARGE_NOW
      = ⟨0, some (propval.intval (20000 * 80))⟩ :=
  ⟨((C18_charge_arithmetic ONEUP_MODEL_NAME globals_static globals_static
      TestPower.globals_static []).1 (by decide)).1,
   ((C18_charge_arithmetic ONEUP_MODEL_NAME globals_static globals_static
      TestPower.globals_static []).2.2.2.2.2.2 (by decide)).1⟩

/-! ## Theorems: repeated ticks -/

/-- One tick of a charging device below 100 when capacity + rate fits an int. -/
theorem tick_charging (cr dr : Int) (s : dummy_batt)
    (hs : s.status = POWER_SUPPLY_STATUS_CHARGING) (hc : s.capacity < 100)
    (hr : -2147483648 ≤ s.capacity + cr ∧ s.capacity + cr ≤ 2147483647) :
    (dummy_sim_work cr dr s).db.capacity = min (s.capacity + cr) 100 ∧
    (dummy_sim_work cr dr s).db.status =
      if s.capacity + cr ≥ 100 then POWER_SUPPLY_STATUS_FULL
      else POWER_SUPPLY_STATUS_CHARGING := by
  rw [(dummy_sim_work_step cr dr s).1, (dummy_sim_work_step cr dr s).2.1]
  by_cases h : s.capacity + cr ≥ 100
  · have e : sim_step cr dr s
        = ({ s with capacity := 100, status := POWER_SUPPLY_STATUS_FULL }, true) := by
      simp [sim_step, hs, hc, wrap32_of_range _ hr, h]
    rw [e, if_pos h]
    exact ⟨by simp only []; omega, rfl⟩
  · have e : sim_step cr dr s = ({ s with capacity := s.capacity + cr }, true) := by
      simp [sim_step, hs, hc, wrap32_of_range _ hr, h]
    rw [e, if_neg h]
    exact ⟨by simp only []; omega, hs⟩

/-- One tick of a discharging device above 0 when capacity - rate fits an int. -/
theorem tick_discharging (cr dr : Int) (s : dummy_batt)
    (hs : s.status = POWER_SUPPLY_STATUS_DISCHARGING) (hc : s.capacity > 0)
    (hr : -2147483648 ≤ s.capacity - dr ∧ s.capacity - dr ≤ 2147483647) :
    (dummy_sim_work cr dr s).db.capacity = max (s.capacity - dr) 0 ∧
    (dummy_sim_work cr dr s).db.status =
      if s.capacity - dr ≤ 0 then POWER_SUPPLY_STATUS_NOT_CHARGING
      else POWER_SUPPLY_STATUS_DISCHARGING := by
  have hnc : ¬ (s.status = POWER_SUPPLY_STATUS_CHARGING ∧ s.capacity < 100) := by
    intro hh
    have h0 := hh.1
    rw [hs] at h0
    exact absurd h0 (by decide)
  rw [(dummy_sim_work_step cr dr s).1, (dummy_sim_work_step cr dr s).2.1]
  by_cases h : s.capacity - dr ≤ 0
  · have e : sim_step cr dr s
        = ({ s with capacity := 0, status := POWER_SUPPLY_STATUS_NOT_CHARGING }, true) := by
      simp only [sim_step, if_neg hnc, if_pos (And.intro hs hc), wrap32_of_range _ hr, if_pos h]
    rw [e, if_pos h]
    exact ⟨by simp only []; omega, rfl⟩
  · have e : sim_step cr dr s = ({ s with capacity := s.capacity - dr }, true) := by
      simp only [sim_step, if_neg hnc, if_pos (And.intro hs hc), wrap32_of_range _ hr, if_neg h]
    rw [e, if_neg h]
    exact ⟨by simp only []; omega, hs⟩

/-- One tick of a device that is Full or NotCharging changes neither capacity
nor status. -/
theorem tick_terminal (cr dr : Int) (s : dummy_batt)
    (hs : s.status = POWER_SUPPLY_STATUS_FULL ∨ s.status = POWER_SUPPLY_STATUS_NOT_CHARGING) :
    (dummy_sim_work cr dr s).db.capacity = s.capacity ∧
    (dummy_sim_work cr dr s).db.status = s.status := by
  have h1 : ¬ (s.status = POWER_SUPPLY_STATUS_CHARGING ∧ s.capacity < 100) := by
    intro hh
    have h0 := hh.1
    rcases hs with h | h <;> rw [h] at h0 <;> exact absurd h0 (by decide)
  have h2 : ¬ (s.status = POWER_SUPPLY_STATUS_DISCHARGING ∧ s.capacity > 0) := by
    intro hh
    have h0 := hh.1
    rcases hs with h | h <;> rw [h] at h0 <;> exact absurd h0 (by decide)
  rw [(dummy_sim_work_step cr dr s).1, (dummy_sim_work_step cr dr s).2.1]
  simp only [sim_step, if_neg h1, if_neg h2]
  exact ⟨trivial, trivial⟩

/-- Closed form of repeated ticks while charging, for a rate r with
0 <= r <= 2147483548 (so that capacity + r never overflows): after n ticks the
capacity is min(c + n*r, 100) and the status is Full exactly when
c + n*r >= 100, and Charging otherwise. -/
theorem ticks_charging_closed_form (r dr : Int) (s : dummy_batt) (n : Nat)
    (hr : 0 ≤ r ∧ r ≤ 2147483548) (hs : s.status = POWER_SUPPLY_STATUS_CHARGING)
    (hc : 0 ≤ s.capacity ∧ s.capacity < 100) :
    (ticks r dr n s).capacity = min (s.capacity + n * r) 100 ∧
    (ticks r dr n s).status =
      if s.capacity + n * r ≥ 100 then POWER_SUPPLY_STATUS_FULL
      else POWER_SUPPLY_STATUS_CHARGING := by
  induction n with
  | zero =>
    have h : ¬ s.capacity + ((0 : Nat) : Int) * r ≥ 100 := by
      simp only [Nat.cast_zero, zero_mul, add_zero]; omega
    rw [if_neg h]
    simp only [ticks, Nat.cast_zero, zero_mul, add_zero]
    exact ⟨by omega, hs⟩
  | succ k ih =>
    have hk : 0 ≤ (k : Int) * r := mul_nonneg (Int.ofNat_nonneg k) hr.1
    have e : ((k + 1 : Nat) : Int) * r = (k : Int) * r + r := by push_cast; ring
    rw [e]
    simp only [ticks]
    by_cases h : s.capacity + (k : Int) * r ≥ 100
    · rw [if_pos h] at ih
      have t := tick_terminal r dr (ticks r dr k s) (Or.inl ih.2)
      have h2 : s.capacity + ((k : Int) * r + r) ≥ 100 := by omega
      rw [if_pos h2, t.1, t.2, ih.1, ih.2]
      exact ⟨by omega, rfl⟩
    · rw [if_neg h] at ih
      have hcap : (ticks r dr k s).capacity = s.capacity + (k : Int) * r := by
        rw [ih.1]; omega
      have t := tick_charging r dr (ticks r dr k s) ih.2 (by omega) (by omega)
      rw [t.1, t.2, hcap]
      constructor
      · omega
      · by_cases h2 : s.capacity + (k : Int) * r + r ≥ 100
        · rw [if_pos h2, if_pos (by omega)]
        · rw [if_neg h2, if_neg (by omega)]

/-- Closed form of repeated ticks while discharging, for every non-negative
`int` rate d: after n ticks the capacity is max(c - n*d, 0) and the status is
NotCharging exactly when c - n*d <= 0, and Discharging otherwise. -/
theorem ticks_discharging_closed_form (cr d : Int) (s : dummy_batt) (n : Nat)
    (hd : 0 ≤ d ∧ d ≤ 2147483647) (hs : s.status = POWER_SUPPLY_STATUS_DISCHARGING)
    (hc : 0 < s.capacity ∧ s.capacity ≤ 100) :
    (ticks cr d n s).capacity = max (s.capacity - n * d) 0 ∧
    (ticks cr d n s).status =
      if s.capacity - n * d ≤ 0 then POWER_SUPPLY_STATUS_NOT_CHARGING
      else POWER_SUPPLY_STATUS_DISCHARGING := by
  induction n with
  | zero =>
    have h : ¬ s.capacity - ((0 : Nat) : Int) * d ≤ 0 := by
      simp only [Nat.cast_zero, zero_mul, sub_zero]; omega
    rw [if_neg h]
    simp only [ticks, Nat.cast_zero, zero_mul, sub_zero]
    exact ⟨by omega, hs⟩
  | succ k ih =>
    have hk : 0 ≤ (k : Int) * d := mul_nonneg (Int.ofNat_nonneg k) hd.1
    have e : ((k + 1 : Nat) : Int) * d = (k : Int) * d + d := by push_cast; ring
    rw [e]
    simp only [ticks]
    by_cases h : s.capacity - (k : Int) * d ≤ 0
    · rw [if_pos h] at ih
      have t := tick_terminal cr d (ticks cr d k s) (Or.inr ih.2)
      have h2 : s.capacity - ((k : Int) * d + d) ≤ 0 := by omega
      rw [if_pos h2, t.1, t.2, ih.1, ih.2]
      exact ⟨by omega, rfl⟩
    · rw [if_neg h] at ih
      have hcap : (ticks cr d k s).capacity = s.capacity - (k : Int) * d := by
        rw [ih.1]; omega
      have t := tick_discharging cr d (ticks cr d k s) ih.2 (by omega) (by omega)
      rw [t.1, t.2, hcap]
      constructor
      · omega
      · by_cases h2 : s.capacity - (k : Int) * d - d ≤ 0
        · rw [if_pos h2, if_pos (by omega)]
        · rw [if_neg h2, if_neg (by omega)]

/-- C19: the closed form fails for the largest `int` charge rate. With
start_capacity=50, start_charging and charge_rate=2147483647 the probed state
is Charging at capacity 50; the closed form gives capacity
min(50 + 1 * 2147483647, 100) = 100 and status Full after one tick, while the
tick leaves capacity -2147483599 (the wrapped sum) and status Charging. -/
theorem C19_closed_form_fails_at_max_rate :
    (dummy_probe max_rate_params).status = POWER_SUPPLY_STATUS_CHARGING ∧
    (dummy_probe max_rate_params).capacity = 50 ∧
    min ((dummy_probe max_rate_params).capacity + 1 * max_rate_params.charge_rate) 100 = 100 ∧
    (ticks max_rate_params.charge_rate max_rate_params.discharge_rate 1
      (dummy_probe max_rate_params)).capacity = -2147483599 ∧
    (ticks max_rate_params.charge_rate max_rate_params.discharge_rate 1
      (dummy_probe max_rate_params)).status = POWER_SUPPLY_STATUS_CHARGING := by
  decide

end ArgonOneUp
